import Mathlib

/-!
# Lead-capture flow: `api/submit-lead.js` and the form controller of `public/assets/js/main.js`

A shallow embedding of the two JavaScript components.

* JavaScript strings are Lean strings (sequences of Unicode scalar values).  The
  regular expression of the source has no `u` flag and therefore works on UTF-16 code
  units; a scalar value above U+FFFF is a surrogate pair, and no surrogate is white
  space, `@` or `.`, so matching over scalar values decides the same way.
* Asynchronous calls are awaited one after the other in the source, so a handler run is
  a pure function of the request, the configuration and the outcomes of the external
  calls; it returns the list of effects in program order and the way the run ended.
-/

namespace LeadFlow

/-! ## Strings -/

/-- White space as ECMAScript defines it for `String.prototype.trim` and for the regular
expression class `\s`: the WhiteSpace code points (TAB, VT, FF, ZWNBSP and the category Zs)
and the LineTerminator code points (LF, CR, LS, PS). -/
def isWhiteSpace (c : Char) : Bool :=
  let n := c.toNat
  n == 0x09 || n == 0x0A || n == 0x0B || n == 0x0C || n == 0x0D || n == 0x20 ||
  n == 0xA0 || n == 0x1680 || (0x2000 ≤ n && n ≤ 0x200A) || n == 0x2028 || n == 0x2029 ||
  n == 0x202F || n == 0x205F || n == 0x3000 || n == 0xFEFF

/-- The characters of `s.trim()`: white space removed at both ends. -/
def trimChars (cs : List Char) : List Char :=
  ((cs.dropWhile isWhiteSpace).reverse.dropWhile isWhiteSpace).reverse

/-- `String.prototype.trim`. -/
def jsTrim (s : String) : String := ⟨trimChars s.data⟩

/-- ToBoolean of a string: only the empty string is falsy. -/
def strTruthy (s : String) : Bool := !s.data.isEmpty

/-! ## The regular expression `/^[^\s@]+@[^\s@]+\.[^\s@]+$/`

The pattern is written with three matcher combinators in continuation-passing style, the
way a backtracking matcher runs it: each combinator consumes a prefix of the input and hands
the rest to the continuation. -/

/-- The class `[^\s@]`. -/
def notSpaceAt (c : Char) : Bool := !isWhiteSpace c && c != '@'

/-- `p+` followed by `k`: one or more characters of the class, longest run tried first. -/
def oneOrMore (p : Char → Bool) (k : List Char → Bool) : List Char → Bool
  | [] => false
  | c :: cs => p c && (oneOrMore p k cs || k cs)

/-- A literal character followed by `k`. -/
def lit (a : Char) (k : List Char → Bool) : List Char → Bool
  | [] => false
  | c :: cs => c == a && k cs

/-- The anchor `$` (no `m` flag): only the end of the input. -/
def atEnd : List Char → Bool
  | [] => true
  | _ :: _ => false

/-- The matcher of `/^[^\s@]+@[^\s@]+\.[^\s@]+$/` on a list of characters. -/
def emailRegex : List Char → Bool :=
  oneOrMore notSpaceAt (lit '@' (oneOrMore notSpaceAt (lit '.' (oneOrMore notSpaceAt atEnd))))

/-- `emailRegex.test(s)` for a string `s`. -/
def emailRegexTest (s : String) : Bool := emailRegex s.data

/-- The pattern in the words of the specification: a non-empty run without white space or
`@`, then `@`, then such a run, then `.`, then such a run, and nothing before or after. -/
def MatchesEmailPattern (s : String) : Prop :=
  ∃ a b c : List Char,
    s.data = a ++ '@' :: (b ++ '.' :: c) ∧
    a ≠ [] ∧ b ≠ [] ∧ c ≠ [] ∧
    (∀ x ∈ a, isWhiteSpace x = false ∧ x ≠ '@') ∧
    (∀ x ∈ b, isWhiteSpace x = false ∧ x ≠ '@') ∧
    (∀ x ∈ c, isWhiteSpace x = false ∧ x ≠ '@')

/-- The array `validSizes`. -/
def validSizes : List String := ["1-5", "6-20", "21-50", "50+"]

/-! ## Values of a parsed JSON body -/

/-- A JavaScript value as a request body can hold it.  A number is represented by the two
observations the code makes of one: its truthiness and its string form. -/
inductive JsVal where
  | undefined
  | null
  | bool (b : Bool)
  | num (truthy : Bool) (text : String)
  | str (s : String)
  | arr (items : List JsVal)
  | obj (props : List (String × JsVal))

/-- ToBoolean. -/
def JsVal.truthy : JsVal → Bool
  | .undefined => false
  | .null => false
  | .bool b => b
  | .num t _ => t
  | .str s => strTruthy s
  | .arr _ => true
  | .obj _ => true

/-- The own property `k` of an object given by its list of properties. -/
def lookupProp (k : String) : List (String × JsVal) → JsVal
  | [] => .undefined
  | (k', v) :: rest => if k' = k then v else lookupProp k rest

/-- Whether an object has an own property `k`. -/
def hasProp (k : String) (props : List (String × JsVal)) : Bool :=
  props.any (fun p => p.1 == k)

/-- Reading `v.k` for one of the property names the code reads (`name`, `email`, `phone`,
`company`, `company_size`, `challenge`, `message`): `none` is the TypeError raised on
`undefined` and `null`; strings, numbers, booleans and arrays have no such property. -/
def JsVal.get (v : JsVal) (k : String) : Option JsVal :=
  match v with
  | .undefined => none
  | .null => none
  | .obj props => some (lookupProp k props)
  | _ => some .undefined

mutual
/-- ToString; `none` is a TypeError.  A parsed object has no callable own `toString`, so an
own property of that name makes the conversion fail, and otherwise the inherited method
answers `[object Object]`.  An array joins its items with commas. -/
def JsVal.toStr : JsVal → Option String
  | .undefined => some "undefined"
  | .null => some "null"
  | .bool b => some (if b then "true" else "false")
  | .num _ t => some t
  | .str s => some s
  | .arr items => JsVal.joinItems items
  | .obj props => if hasProp "toString" props then none else some "[object Object]"
termination_by structural v => v
/-- `Array.prototype.join` with the separator `,`: an `undefined` or `null` item gives the
empty string. -/
def JsVal.joinItems : List JsVal → Option String
  | [] => some ""
  | x :: rest =>
    match (match x with
           | .undefined => some ""
           | .null => some ""
           | v => JsVal.toStr v), JsVal.joinItems rest with
    | some a, some b => some (if rest.isEmpty then a else a ++ "," ++ b)
    | _, _ => none
termination_by structural items => items
end

/-! ## The server: `api/submit-lead.js` -/

/-- The variables of `process.env` the handler reads; `none` is an unset variable. -/
structure Env where
  NOTION_API_KEY : Option String
  NOTION_DATABASE_ID : Option String
  SENDGRID_API_KEY : Option String
  SENDGRID_FROM_EMAIL : Option String
  RESEND_API_KEY : Option String
deriving DecidableEq

/-- ToBoolean of an environment variable: unset and the empty string are falsy. -/
def envTruthy : Option String → Bool
  | none => false
  | some s => strTruthy s

/-- `v || d` for an environment variable. -/
def envOr (v : Option String) (d : String) : String :=
  match v with
  | none => d
  | some s => if strTruthy s then s else d

/-- A thrown error object: its `code` property (set on the errors of the record-store
client, absent on others) and its `message`. -/
structure Fault where
  code : Option String
  message : String
deriving DecidableEq

/-- The TypeError the runtime raises (reading a property of `undefined` or `null`, calling
something that is not a function, a failed ToString); it has no `code`, and its message text
is engine-specific and is never put into a response. -/
def typeError : Fault := { code := none, message := "TypeError" }

/-- The record the store returns: `notionPage.id` and `notionPage.url`. -/
structure NotionPage where
  id : String
  url : String
deriving DecidableEq

/-- The argument of `notion.pages.create`: the parent database and the nine properties. -/
structure CreateArgs where
  database_id : Option String
  Name : String
  Email : String
  /-- The property `Téléphone`: `none` is `phone_number: null`. -/
  Telephone : Option String
  Entreprise : String
  Taille : String
  /-- The property `Défi`. -/
  Defi : String
  Statut : String
  Source : String
  DateSoumission : String
deriving DecidableEq

/-- The object handed to `sendEmailNotification`. -/
structure LeadData where
  name : String
  email : String
  phone : String
  company : String
  company_size : String
  challenge : String
  notionUrl : String
deriving DecidableEq

/-- The message given to `sgMail.send`, with the key given to `sgMail.setApiKey`. -/
structure SgMessage where
  apiKey : String
  recipient : String
  sender : String
  subject : String
  text : String
  html : String
deriving DecidableEq

/-- The request `fetch` sends to `https://api.resend.com/emails`; the JSON body has no
`text` member. -/
structure ResendRequest where
  url : String
  method : String
  authorization : String
  contentType : String
  sender : String
  recipient : String
  subject : String
  html : String
deriving DecidableEq

/-- What lies outside the handler: the clock, the string function the model does not
define, and the outcome of each external call as a function of its argument. -/
structure World where
  /-- `new Date().toISOString().split('T')[0]`. -/
  today : String
  /-- `String.prototype.toLowerCase`. -/
  toLowerCase : String → String
  /-- `notion.pages.create`: a record, or a thrown fault. -/
  pagesCreate : CreateArgs → Except Fault NotionPage
  /-- `sgMail.send`: done, or a thrown fault. -/
  sgSend : SgMessage → Except Fault Unit
  /-- `fetch` to the second provider: `response.ok`, or a thrown fault. -/
  resendFetch : ResendRequest → Except Fault Bool

/-- The effects of a run, in program order.  A console call is recorded with its first
argument only. -/
inductive Effect where
  | setHeader (name value : String)
  | consoleLog (text : String)
  | consoleWarn (text : String)
  | consoleError (text : String)
  | pagesCreate (args : CreateArgs)
  | sgSend (msg : SgMessage)
  | resendFetch (req : ResendRequest)
deriving DecidableEq

/-- The JSON object of a response; `none` is a member that is not there. -/
structure JsonBody where
  success : Bool
  message : String
  notionPageId : Option String
  details : Option String
deriving DecidableEq

/-- What `res` sends: `end()` sends no body, `json(b)` sends `b`. -/
inductive ResBody where
  | empty
  | json (b : JsonBody)
deriving DecidableEq

/-- A sent response. -/
structure Response where
  status : Nat
  body : ResBody
deriving DecidableEq

/-- How a run of the handler ends: it returns after sending a response, or a fault leaves
the function (the returned promise rejects) and no response was sent. -/
inductive Completion where
  | responded (r : Response)
  | threw (e : Fault)
deriving DecidableEq

/-- A run of the handler. -/
structure Run where
  effects : List Effect
  completion : Completion

/-- The request: `req.method` and `req.body` (`undefined` when the request has no body). -/
structure Request where
  method : String
  body : JsVal

/-- The six constants of `const { name, email, phone, company, company_size, challenge } =
req.body`. -/
structure Fields where
  name : JsVal
  email : JsVal
  phone : JsVal
  company : JsVal
  company_size : JsVal
  challenge : JsVal

/-- The destructuring of line 66; `none` is the TypeError on a body that is `undefined` or
`null`. -/
def destructure (body : JsVal) : Option Fields :=
  match body.get "name", body.get "email", body.get "phone", body.get "company",
        body.get "company_size", body.get "challenge" with
  | some n, some e, some p, some c, some cs, some ch =>
    some { name := n, email := e, phone := p, company := c, company_size := cs, challenge := ch }
  | _, _, _, _, _, _ => none

/-- `v.trim()`: a TypeError unless `v` is a string. -/
def trimOf : JsVal → Except Fault String
  | .str s => .ok (jsTrim s)
  | _ => .error typeError

/-- The string of a value on which `.trim()` was called without a fault. -/
def strOf : JsVal → Except Fault String
  | .str s => .ok s
  | _ => .error typeError

/-- `v && v.trim() !== ''`, answering the trimmed text when the test holds. -/
def trimmedIfAny (v : JsVal) : Except Fault (Option String) :=
  if v.truthy then
    match trimOf v with
    | .ok t => .ok (if strTruthy t then some t else none)
    | .error e => .error e
  else .ok none

/-- The argument object of `notion.pages.create` (lines 98 to 176), evaluated member by
member; `size` is the `company_size` that passed the `includes` test. -/
def buildCreateArgs (env : Env) (w : World) (f : Fields) (size : String) :
    Except Fault CreateArgs := do
  let name ← trimOf f.name
  let email ← trimOf f.email
  let phone ← trimmedIfAny f.phone
  let company ← trimOf f.company
  let challenge ← trimmedIfAny f.challenge
  pure { database_id := env.NOTION_DATABASE_ID
         Name := name
         Email := w.toLowerCase email
         Telephone := phone
         Entreprise := company
         Taille := size
         Defi := challenge.getD "Non renseigné"
         Statut := "Nouveau"
         Source := "Site Web - Homepage"
         DateSoumission := w.today }

/-- `v || 'Non renseigné'` for a value the argument object already used as text. -/
def orNonRenseigne (v : JsVal) : Except Fault String :=
  if v.truthy then strOf v else .ok "Non renseigné"

/-- The object of lines 184 to 192. -/
def buildLeadData (f : Fields) (size : String) (page : NotionPage) : Except Fault LeadData := do
  let name ← strOf f.name
  let email ← strOf f.email
  let phone ← orNonRenseigne f.phone
  let company ← strOf f.company
  let challenge ← orNonRenseigne f.challenge
  pure { name := name, email := email, phone := phone, company := company,
         company_size := size, challenge := challenge, notionUrl := page.url }

/-- The subject line of both providers. -/
def subjectLine (d : LeadData) : String :=
  "🎯 Nouveau lead : " ++ d.name ++ " (" ++ d.company ++ ")"

/-- The `text` template of the first provider. -/
def sgText (d : LeadData) : String :=
  "\n" ++
  "Nouveau lead reçu depuis le site web !\n" ++
  "\n" ++
  "👤 Nom : " ++ d.name ++ "\n" ++
  "📧 Email : " ++ d.email ++ "\n" ++
  "📞 Téléphone : " ++ d.phone ++ "\n" ++
  "🏢 Entreprise : " ++ d.company ++ "\n" ++
  "👥 Taille : " ++ d.company_size ++ " employés\n" ++
  "💡 Défi : " ++ d.challenge ++ "\n" ++
  "\n" ++
  "🔗 Voir dans Notion : " ++ d.notionUrl ++ "\n" ++
  "\n" ++
  "---\n" ++
  "L'Agence Sauvage - Notifications automatiques\n" ++
  "      "

/-- The `html` template of the first provider. -/
def sgHtml (d : LeadData) : String :=
  "\n" ++
  "<div style=\"font-family: Arial, sans-serif; max-width: 600px; margin: 0 auto;\">\n" ++
  "  <h2 style=\"color: #224f3c;\">🎯 Nouveau lead reçu !</h2>\n" ++
  "  \n" ++
  "  <div style=\"background: #f2ede1; padding: 20px; border-radius: 8px; margin: 20px 0;\">\n" ++
  "    <p><strong>👤 Nom :</strong> " ++ d.name ++ "</p>\n" ++
  "    <p><strong>📧 Email :</strong> <a href=\"mailto:" ++ d.email ++ "\">" ++ d.email ++ "</a></p>\n" ++
  "    <p><strong>📞 Téléphone :</strong> " ++ d.phone ++ "</p>\n" ++
  "    <p><strong>🏢 Entreprise :</strong> " ++ d.company ++ "</p>\n" ++
  "    <p><strong>👥 Taille :</strong> " ++ d.company_size ++ " employés</p>\n" ++
  "    <p><strong>💡 Défi principal :</strong> " ++ d.challenge ++ "</p>\n" ++
  "  </div>\n" ++
  "  \n" ++
  "  <a href=\"" ++ d.notionUrl ++ "\" \n" ++
  "     style=\"display: inline-block; background: #224f3c; color: white; padding: 12px 24px; text-decoration: none; border-radius: 8px; margin: 20px 0;\">\n" ++
  "    🔗 Voir dans Notion\n" ++
  "  </a>\n" ++
  "  \n" ++
  "  <hr style=\"margin: 30px 0; border: none; border-top: 1px solid #e0e0e0;\">\n" ++
  "  \n" ++
  "  <p style=\"color: #8c8982; font-size: 14px;\">\n" ++
  "    L'Agence Sauvage - Notifications automatiques<br>\n" ++
  "    Lead capturé depuis : <strong>Site Web - Homepage</strong>\n" ++
  "  </p>\n" ++
  "</div>\n" ++
  "      "

/-- The `html` template of the second provider. -/
def resendHtml (d : LeadData) : String :=
  "\n" ++
  "<h2>🎯 Nouveau lead reçu !</h2>\n" ++
  "<p><strong>Nom :</strong> " ++ d.name ++ "</p>\n" ++
  "<p><strong>Email :</strong> " ++ d.email ++ "</p>\n" ++
  "<p><strong>Téléphone :</strong> " ++ d.phone ++ "</p>\n" ++
  "<p><strong>Entreprise :</strong> " ++ d.company ++ "</p>\n" ++
  "<p><strong>Taille :</strong> " ++ d.company_size ++ "</p>\n" ++
  "<p><strong>Défi :</strong> " ++ d.challenge ++ "</p>\n" ++
  "<p><a href=\"" ++ d.notionUrl ++ "\">Voir dans Notion</a></p>\n" ++
  "        "

/-- The message of lines 267 to 312. -/
def sgMessage (env : Env) (key : String) (d : LeadData) : SgMessage :=
  { apiKey := key
    recipient := "franck@lagencesauvage.com"
    sender := envOr env.SENDGRID_FROM_EMAIL "hello@lagencesauvage.com"
    subject := subjectLine d
    text := sgText d
    html := sgHtml d }

/-- The request of lines 319 to 340. -/
def resendRequest (key : String) (d : LeadData) : ResendRequest :=
  { url := "https://api.resend.com/emails"
    method := "POST"
    authorization := "Bearer " ++ key
    contentType := "application/json"
    sender := "notifications@lagencesauvage.com"
    recipient := "contact@lagencesauvage.com"
    subject := subjectLine d
    html := resendHtml d }

/-- The function `sendEmailNotification`: its effects and whether it returns or throws.
The first provider is taken when its key is truthy, else the second when its key is truthy,
else a warning is logged. -/
def sendEmailNotification (env : Env) (w : World) (d : LeadData) :
    List Effect × Except Fault Unit :=
  if envTruthy env.SENDGRID_API_KEY then
    let msg := sgMessage env (env.SENDGRID_API_KEY.getD "") d
    ([.sgSend msg], w.sgSend msg)
  else if envTruthy env.RESEND_API_KEY then
    let req := resendRequest (env.RESEND_API_KEY.getD "") d
    match w.resendFetch req with
    | .error e => ([.resendFetch req], .error e)
    | .ok ok =>
      if !ok then ([.resendFetch req], .error { code := none, message := "Erreur envoi email Resend" })
      else ([.resendFetch req], .ok ())
  else
    ([.consoleWarn "⚠️ Aucune API email configurée. Configurez SENDGRID_API_KEY ou RESEND_API_KEY"],
     .ok ())

/-- A response with a JSON body of `success` and `message` only. -/
def failure (status : Nat) (message : String) : Response :=
  { status := status
    body := .json { success := false, message := message, notionPageId := none, details := none } }

/-- The `catch (error)` block of lines 209 to 245. -/
def catchBlock (error : Fault) : List Effect × Response :=
  let log := [Effect.consoleError "❌ Erreur lors de la soumission:"]
  if error.code = some "validation_error" then
    (log, { status := 400
            body := .json { success := false
                            message := "Format de données invalide pour Notion"
                            notionPageId := none
                            details := some error.message } })
  else if error.code = some "object_not_found" then
    (log, failure 500 "Base de données Notion introuvable. Contactez le support.")
  else if error.code = some "unauthorized" then
    (log, failure 500 "Problème d'authentification Notion. Contactez le support.")
  else
    (log, failure 500
      "Une erreur est survenue. Veuillez réessayer ou nous contacter directement.")

/-- The body of the `try` of lines 94 to 208: the effects made and either the response of
line 203 or the fault that reaches the `catch`.  A fault of the notification is caught by
the inner `catch` and only logged.  The object of lines 184 to 192 is built from values
the argument object already used as strings, so its fault branch is never taken
(`buildLeadData_ok`). -/
def tryBlock (env : Env) (w : World) (f : Fields) (size : String) :
    List Effect × Except Fault Response :=
  match buildCreateArgs env w f size with
  | .error e => ([], .error e)
  | .ok args =>
    match w.pagesCreate args with
    | .error e => ([.pagesCreate args], .error e)
    | .ok page =>
      let created := [Effect.pagesCreate args, Effect.consoleLog "✅ Lead créé dans Notion:"]
      match buildLeadData f size page with
      | .error e => (created, .error e)
      | .ok d =>
        let sent := sendEmailNotification env w d
        let logged :=
          match sent.2 with
          | .ok _ => [Effect.consoleLog "✅ Email de notification envoyé"]
          | .error _ => [Effect.consoleError "⚠️ Erreur envoi email (non bloquant):"]
        (created ++ sent.1 ++ logged,
         .ok { status := 200
               body := .json { success := true
                               message := "Lead enregistré avec succès"
                               notionPageId := some page.id
                               details := none } })

/-- The three `res.setHeader` calls of lines 33 to 35. -/
def corsHeaders : List Effect :=
  [.setHeader "Access-Control-Allow-Origin" "*",
   .setHeader "Access-Control-Allow-Methods" "POST, OPTIONS",
   .setHeader "Access-Control-Allow-Headers" "Content-Type"]

/-- The exported `handler(req, res)`. -/
def handler (env : Env) (w : World) (req : Request) : Run :=
  if req.method = "OPTIONS" then
    { effects := corsHeaders, completion := .responded { status := 200, body := .empty } }
  else if req.method ≠ "POST" then
    { effects := corsHeaders
      completion := .responded (failure 405 "Méthode non autorisée. Utilisez POST.") }
  else if !envTruthy env.NOTION_API_KEY || !envTruthy env.NOTION_DATABASE_ID then
    { effects := corsHeaders ++ [.consoleError "❌ Variables d'environnement manquantes"]
      completion :=
        .responded (failure 500 "Configuration serveur incomplète. Contactez le support.") }
  else
    match destructure req.body with
    | none => { effects := corsHeaders, completion := .threw typeError }
    | some f =>
      if !f.name.truthy || !f.email.truthy || !f.company.truthy || !f.company_size.truthy then
        { effects := corsHeaders
          completion :=
            .responded (failure 400 "Tous les champs obligatoires doivent être remplis.") }
      else
        match f.email.toStr with
        | none => { effects := corsHeaders, completion := .threw typeError }
        | some e =>
          if !emailRegexTest e then
            { effects := corsHeaders
              completion := .responded (failure 400 "Adresse email invalide.") }
          else
            match f.company_size with
            | .str size =>
              if !validSizes.contains size then
                { effects := corsHeaders
                  completion := .responded (failure 400 "Taille d'entreprise invalide.") }
              else
                match tryBlock env w f size with
                | (effs, .ok r) => { effects := corsHeaders ++ effs, completion := .responded r }
                | (effs, .error err) =>
                  { effects := corsHeaders ++ effs ++ (catchBlock err).1
                    completion := .responded (catchBlock err).2 }
            | _ =>
              { effects := corsHeaders
                completion := .responded (failure 400 "Taille d'entreprise invalide.") }

/-! ## The client: the form controller of `public/assets/js/main.js` -/

/-- The submit control: the two properties the listener writes. -/
structure Button where
  disabled : Bool
  textContent : String
deriving DecidableEq

/-- The element `#formFeedback`: `className`, `textContent` and `style.display`. -/
structure FeedbackEl where
  className : String
  textContent : String
  display : String
deriving DecidableEq

/-- The `value` of each named input of the form; `none` when `form.querySelector` finds no
such element. -/
structure FormInputs where
  name : Option String
  email : Option String
  phone : Option String
  company : Option String
  company_size : Option String
  challenge : Option String
deriving DecidableEq

/-- The object `formData`, which is the JSON body of the POST. -/
structure FormData where
  name : String
  email : String
  phone : String
  company : String
  company_size : String
  challenge : String
deriving DecidableEq

/-- The body the server parses from `JSON.stringify(formData)`. -/
def FormData.toBody (d : FormData) : JsVal :=
  .obj [("name", .str d.name), ("email", .str d.email), ("phone", .str d.phone),
        ("company", .str d.company), ("company_size", .str d.company_size),
        ("challenge", .str d.challenge)]

/-- The resolved value of `fetch`: `response.ok` and the outcome of `response.json()`. -/
structure HttpReply where
  ok : Bool
  json : Except Fault JsVal

/-- What lies outside the listener: the outcome of `fetch` as a function of the body sent,
and the global `gtag` (`none` when `typeof gtag` is `'undefined'`, else the outcome of the
call). -/
structure Browser where
  fetch : FormData → Except Fault HttpReply
  gtag : Option (Except Fault Unit)

/-- The effects of the listener besides its writes to the two elements, in program order. -/
inductive ClientEffect where
  | preventDefault
  | consoleError (text : String)
  | fetchPost (url method contentType : String) (body : FormData)
  | scrollIntoView
  | setTimeout (ms : Nat)
  | formReset
  | gtagEvent
deriving DecidableEq

/-- The page as the listener finds it: the submit button of the form and the feedback
element, each `none` when the lookup finds nothing, and the inputs. -/
structure Dom where
  submitBtn : Option Button
  feedback : Option FeedbackEl
  inputs : FormInputs
deriving DecidableEq

/-- A run of the submit listener: the two elements afterwards, the effects, and the fault
that left the listener, if any. -/
structure ClientRun where
  submitBtn : Option Button
  feedback : Option FeedbackEl
  effects : List ClientEffect
  escaped : Option Fault

/-- The function `showFeedback(type, message)` on the element `feedback`; a TypeError when
the element is `null`. -/
def showFeedback (feedback : Option FeedbackEl) (type message : String) :
    Except Fault (FeedbackEl × List ClientEffect) :=
  match feedback with
  | none => .error typeError
  | some _ =>
    .ok ({ className := "form-feedback form-feedback--" ++ type
           textContent := message
           display := "block" },
         if type = "success" then [.scrollIntoView, .setTimeout 10000] else [.scrollIntoView])

/-- `form.querySelector(...).value.trim()`; a TypeError when the element is not found. -/
def trimmedValue : Option String → Except Fault String
  | none => .error typeError
  | some v => .ok (jsTrim v)

/-- `form.querySelector(...).value`. -/
def rawValue : Option String → Except Fault String
  | none => .error typeError
  | some v => .ok v

/-- The object literal of lines 92 to 99. -/
def collectFormData (i : FormInputs) : Except Fault FormData := do
  let name ← trimmedValue i.name
  let email ← trimmedValue i.email
  let phone ← trimmedValue i.phone
  let company ← trimmedValue i.company
  let size ← rawValue i.company_size
  let challenge ← trimmedValue i.challenge
  pure { name := name, email := email, phone := phone, company := company,
         company_size := size, challenge := challenge }

/-- The error of line 124: `new Error(result.message || 'Une erreur est survenue')`. -/
def serverError (result : JsVal) : Fault :=
  match result.get "message" with
  | none => typeError
  | some m =>
    if m.truthy then
      match m.toStr with
      | some t => { code := none, message := t }
      | none => typeError
    else { code := none, message := "Une erreur est survenue" }

/-- The body of the `try` of lines 90 to 145: the feedback element afterwards, the effects,
and whether the block ends or throws. -/
def submitTry (b : Browser) (i : FormInputs) (feedback : Option FeedbackEl) :
    Option FeedbackEl × List ClientEffect × Except Fault Unit :=
  match collectFormData i with
  | .error e => (feedback, [], .error e)
  | .ok formData =>
    if !strTruthy formData.name || !strTruthy formData.email || !strTruthy formData.company ||
        !strTruthy formData.company_size then
      (feedback, [],
        .error { code := none, message := "Veuillez remplir tous les champs obligatoires" })
    else if !emailRegexTest formData.email then
      (feedback, [],
        .error { code := none, message := "Veuillez fournir une adresse email valide" })
    else
      let post := ClientEffect.fetchPost "/api/submit-lead" "POST" "application/json" formData
      match b.fetch formData with
      | .error e => (feedback, [post], .error e)
      | .ok response =>
        match response.json with
        | .error e => (feedback, [post], .error e)
        | .ok result =>
          if !response.ok then (feedback, [post], .error (serverError result))
          else
            match showFeedback feedback "success"
                "✅ Merci ! Nous vous contacterons sous 24h pour planifier votre audit gratuit." with
            | .error e => (feedback, [post], .error e)
            | .ok (shown, effs) =>
              match b.gtag with
              | none => (some shown, post :: effs ++ [.formReset], .ok ())
              | some r => (some shown, post :: effs ++ [.formReset, .gtagEvent], r)

/-- The `catch (error)` block of lines 146 to 152: the feedback element afterwards, the
effects, and the fault `showFeedback` raises, if any. -/
def submitCatch (error : Fault) (feedback : Option FeedbackEl) :
    Option FeedbackEl × List ClientEffect × Option Fault :=
  let text := "❌ " ++
    (if strTruthy error.message then error.message
     else "Une erreur est survenue. Veuillez réessayer ou nous contacter directement.")
  match showFeedback feedback "error" text with
  | .error e => (feedback, [.consoleError "Erreur soumission formulaire:"], some e)
  | .ok (shown, effs) => (some shown, .consoleError "Erreur soumission formulaire:" :: effs, none)

/-- The `submit` listener of lines 78 to 158. -/
def onSubmit (b : Browser) (dom : Dom) : ClientRun :=
  match dom.submitBtn with
  | none =>
    { submitBtn := none, feedback := dom.feedback, effects := [.preventDefault]
      escaped := some typeError }
  | some btn =>
    let originalText := btn.textContent
    let busy : Button := { disabled := true, textContent := "⏳ Envoi en cours..." }
    match dom.feedback with
    | none =>
      { submitBtn := some busy, feedback := none, effects := [.preventDefault]
        escaped := some typeError }
    | some fb =>
      let hidden : FeedbackEl := { fb with display := "none" }
      let restored : Button := { busy with disabled := false, textContent := originalText }
      match submitTry b dom.inputs (some hidden) with
      | (feedback, effs, .ok _) =>
        { submitBtn := some restored, feedback := feedback
          effects := .preventDefault :: effs, escaped := none }
      | (feedback, effs, .error err) =>
        let caught := submitCatch err feedback
        { submitBtn := some restored, feedback := caught.1
          effects := .preventDefault :: effs ++ caught.2.1, escaped := caught.2.2 }

/-! ## Statement vocabulary -/

/-- The effect is a call of the record-store create operation. -/
def Effect.isCreate : Effect → Bool
  | .pagesCreate _ => true
  | _ => false

/-- The effect is a send through one of the two notification providers. -/
def Effect.isSend : Effect → Bool
  | .sgSend _ => true
  | .resendFetch _ => true
  | _ => false

/-- The effect is a network request of the form controller. -/
def ClientEffect.isFetch : ClientEffect → Bool
  | .fetchPost _ _ _ _ => true
  | _ => false

/-- A field of a submission is missing: absent from the body (or `null`), or the empty
string. -/
def JsVal.isMissing : JsVal → Bool
  | .undefined => true
  | .null => true
  | .str s => s.data.isEmpty
  | _ => false

/-- A field holds a non-empty string. -/
def JsVal.isText : JsVal → Bool
  | .str s => !s.data.isEmpty
  | _ => false

/-- An optional field is absent (or `null`) or holds a string. -/
def JsVal.isOptionalText : JsVal → Bool
  | .undefined => true
  | .null => true
  | .str _ => true
  | _ => false

/-- Both record-store variables are set, each to a non-empty string. -/
def Env.hasStoreCredentials (env : Env) : Bool :=
  match env.NOTION_API_KEY, env.NOTION_DATABASE_ID with
  | some k, some d => !k.data.isEmpty && !d.data.isEmpty
  | _, _ => false

/-- The variable is absent from the configuration: unset, or set to the empty string. -/
def envAbsent (v : Option String) : Prop := v = none ∨ v = some ""

/-- A form input is missing: the element is not in the form, or its value is empty. -/
def inputMissing (v : Option String) : Prop := v = none ∨ v = some ""

/-- The feedback element shows an error: the error class, displayed, with some text. -/
def showsError (feedback : Option FeedbackEl) : Prop :=
  ∃ text, feedback = some ⟨"form-feedback form-feedback--error", text, "block"⟩

/-- The run made no call of the record-store create operation. -/
def Run.noCreate (r : Run) : Prop := ∀ e ∈ r.effects, e.isCreate = false

/-- The run made no send through a notification provider. -/
def Run.noSend (r : Run) : Prop := ∀ e ∈ r.effects, e.isSend = false

/-- The run of the form controller issued no network request. -/
def ClientRun.noFetch (r : ClientRun) : Prop := ∀ e ∈ r.effects, e.isFetch = false

/-- The string is not empty. -/
def nonEmpty (s : String) : Prop := s ≠ ""

/-- The value is one of the four sizes of the data model. -/
def JsVal.IsValidSize (v : JsVal) : Prop :=
  v = .str "1-5" ∨ v = .str "6-20" ∨ v = .str "21-50" ∨ v = .str "50+"

/-- The responses of the three validations. -/
def validationResponses : List Completion :=
  [.responded (failure 400 "Tous les champs obligatoires doivent être remplis."),
   .responded (failure 400 "Adresse email invalide."),
   .responded (failure 400 "Taille d'entreprise invalide.")]

/-- The variable is present in the configuration: set to a non-empty string. -/
def envPresent (v : Option String) : Prop := ∃ k, v = some k ∧ k ≠ ""

/-- The plain-text variant a send carries: the `text` member of the message of the first
provider; the body sent to the second provider has no such member. -/
def Effect.textVariant : Effect → Option String
  | .sgSend msg => some msg.text
  | _ => none

/-- The HTML variant a send carries: the `html` member of either provider. -/
def Effect.htmlVariant : Effect → Option String
  | .sgSend msg => some msg.html
  | .resendFetch req => some req.html
  | _ => none

/-- The text `part` occurs in `s`. -/
def Mentions (s part : String) : Prop := ∃ pre post : String, s = pre ++ part ++ post

/-- The text names every field of the lead and holds the link to the record. -/
def Summarizes (s : String) (d : LeadData) : Prop :=
  Mentions s d.name ∧ Mentions s d.email ∧ Mentions s d.phone ∧ Mentions s d.company ∧
  Mentions s d.company_size ∧ Mentions s d.challenge ∧ Mentions s d.notionUrl

/-- The number of sends through a provider in a list of effects. -/
def sendCount (effects : List Effect) : Nat := (effects.filter Effect.isSend).length

/-- The object `formData` the form controller collects from the values of the six
inputs: all trimmed but the size. -/
def collected (n v p c cs ch : String) : FormData :=
  { name := jsTrim n, email := jsTrim v, phone := jsTrim p, company := jsTrim c,
    company_size := cs, challenge := jsTrim ch }

/-- A page with the submit button, the feedback element and the six inputs holding the
given values. -/
def filledDom (btn : Button) (fb : FeedbackEl) (n v p c cs ch : String) : Dom :=
  { submitBtn := some btn, feedback := some fb
    inputs := { name := some n, email := some v, phone := some p, company := some c,
                company_size := some cs, challenge := some ch } }

/-- The request the form controller sends for a payload. -/
def postOf (d : FormData) : ClientEffect :=
  .fetchPost "/api/submit-lead" "POST" "application/json" d

/-! ## Sample inputs -/

/-- A configuration with the record-store credentials and the second provider. -/
def demoEnv : Env :=
  { NOTION_API_KEY := some "secret_key", NOTION_DATABASE_ID := some "db-1",
    SENDGRID_API_KEY := none, SENDGRID_FROM_EMAIL := none, RESEND_API_KEY := some "re_key" }

/-- A record of the store. -/
def demoPage : NotionPage := { id := "page-1", url := "https://www.notion.so/page-1" }

/-- A world whose store creates the record and whose notification provider answers with
a status that is not ok. -/
def demoWorld : World :=
  { today := "2025-01-15"
    toLowerCase := fun s => ⟨s.data.map Char.toLower⟩
    pagesCreate := fun _ => .ok demoPage
    sgSend := fun _ => .ok ()
    resendFetch := fun _ => .ok false }

/-- A fault of the store with a code the handler does not know. -/
def demoFault : Fault := { code := some "rate_limited", message := "slow down" }

/-- A world whose store raises `demoFault`. -/
def faultyWorld : World := { demoWorld with pagesCreate := fun _ => .error demoFault }

/-- A valid submission. -/
def demoProps : List (String × JsVal) :=
  [("name", .str "Ada"), ("email", .str "ada@example.org"), ("phone", .str ""),
   ("company", .str "Acme"), ("company_size", .str "6-20"), ("challenge", .str "")]

/-- The argument of the create call for `demoProps` in `demoWorld`. -/
def demoArgs : CreateArgs :=
  { database_id := some "db-1", Name := "Ada", Email := "ada@example.org", Telephone := none,
    Entreprise := "Acme", Taille := "6-20", Defi := "Non renseigné", Statut := "Nouveau",
    Source := "Site Web - Homepage", DateSoumission := "2025-01-15" }

/-- The submission `demoProps` with another value for one field. -/
def withField (k : String) (v : JsVal) : List (String × JsVal) := (k, v) :: demoProps

/-- A configuration without the record-store API key. -/
def noKeyEnv : Env := { demoEnv with NOTION_API_KEY := none }

/-- A submission without `name`. -/
def noNameProps : List (String × JsVal) :=
  [("email", .str "ada@example.org"), ("company", .str "Acme"), ("company_size", .str "6-20")]

/-- A browser whose request is answered 200 and which has no `gtag`. -/
def demoBrowser : Browser :=
  { fetch := fun _ => .ok { ok := true, json := .ok (.obj [("success", .bool true)]) }
    gtag := none }

/-- The inputs of a filled form. -/
def demoInputs : FormInputs :=
  { name := some "Ada", email := some " ada@example.org ", phone := some "",
    company := some "Acme", company_size := some "6-20", challenge := some "" }

/-- A page with the submit button and the feedback element. -/
def demoDom : Dom :=
  { submitBtn := some { disabled := false, textContent := "Envoyer" }
    feedback := some { className := "form-feedback", textContent := "", display := "none" }
    inputs := demoInputs }

/-- The page `demoDom` with other inputs. -/
def domWith (i : FormInputs) : Dom := { demoDom with inputs := i }

/-- The lead of `demoProps` with the link to `demoPage`. -/
def demoLead : LeadData :=
  { name := "Ada", email := "ada@example.org", phone := "Non renseigné", company := "Acme",
    company_size := "6-20", challenge := "Non renseigné",
    notionUrl := "https://www.notion.so/page-1" }

/-- A configuration with the keys of both providers. -/
def bothKeysEnv : Env := { demoEnv with SENDGRID_API_KEY := some "sg_key" }

/-- A configuration with no provider key. -/
def noProviderEnv : Env := { demoEnv with RESEND_API_KEY := none }

/-! ## The regular expression against its description -/

theorem oneOrMore_iff (p : Char → Bool) (k : List Char → Bool) (s : List Char) :
    oneOrMore p k s = true ↔
      ∃ a r, s = a ++ r ∧ a ≠ [] ∧ (∀ x ∈ a, p x = true) ∧ k r = true := by
  induction s with
  | nil =>
    constructor
    · intro h
      simp [oneOrMore] at h
    · rintro ⟨a, r, h, ha, -, -⟩
      cases a with
      | nil => exact absurd rfl ha
      | cons x xs => simp at h
  | cons c cs ih =>
    constructor
    · intro h
      simp only [oneOrMore, Bool.and_eq_true, Bool.or_eq_true] at h
      obtain ⟨hc, h | h⟩ := h
      · obtain ⟨a, r, rfl, -, hp, hk⟩ := ih.mp h
        refine ⟨c :: a, r, rfl, by simp, ?_, hk⟩
        intro x hx
        rcases List.mem_cons.mp hx with rfl | hx
        · exact hc
        · exact hp x hx
      · exact ⟨[c], cs, rfl, by simp, by simpa using hc, h⟩
    · rintro ⟨a, r, h, ha, hp, hk⟩
      cases a with
      | nil => exact absurd rfl ha
      | cons x xs =>
        simp only [List.cons_append, List.cons.injEq] at h
        obtain ⟨rfl, rfl⟩ := h
        simp only [oneOrMore, Bool.and_eq_true, Bool.or_eq_true]
        refine ⟨hp c (List.mem_cons_self _ _), ?_⟩
        cases xs with
        | nil => exact Or.inr (by simpa using hk)
        | cons y ys =>
          refine Or.inl (ih.mpr ⟨y :: ys, r, rfl, by simp, ?_, hk⟩)
          intro z hz
          exact hp z (List.mem_cons_of_mem _ hz)

theorem lit_iff (a : Char) (k : List Char → Bool) (s : List Char) :
    lit a k s = true ↔ ∃ r, s = a :: r ∧ k r = true := by
  cases s with
  | nil => simp [lit]
  | cons c cs =>
    simp only [lit, Bool.and_eq_true, beq_iff_eq, List.cons.injEq]
    constructor
    · rintro ⟨rfl, h⟩
      exact ⟨cs, ⟨rfl, rfl⟩, h⟩
    · rintro ⟨r, ⟨rfl, rfl⟩, h⟩
      exact ⟨rfl, h⟩

theorem atEnd_iff (s : List Char) : atEnd s = true ↔ s = [] := by
  cases s <;> simp [atEnd]

theorem notSpaceAt_iff (x : Char) :
    notSpaceAt x = true ↔ (isWhiteSpace x = false ∧ x ≠ '@') := by
  simp [notSpaceAt]

/-- The matcher written from the source accepts exactly the strings of the description. -/
theorem emailRegexTest_iff (s : String) :
    emailRegexTest s = true ↔ MatchesEmailPattern s := by
  unfold emailRegexTest emailRegex MatchesEmailPattern
  rw [oneOrMore_iff]
  constructor
  · rintro ⟨a, r, hs, ha, hpa, hk⟩
    obtain ⟨r₁, rfl, hk⟩ := (lit_iff _ _ _).mp hk
    obtain ⟨b, r₂, rfl, hb, hpb, hk⟩ := (oneOrMore_iff _ _ _).mp hk
    obtain ⟨r₃, rfl, hk⟩ := (lit_iff _ _ _).mp hk
    obtain ⟨c, r₄, rfl, hc, hpc, hk⟩ := (oneOrMore_iff _ _ _).mp hk
    obtain rfl := (atEnd_iff _).mp hk
    refine ⟨a, b, c, by simpa using hs, ha, hb, hc, ?_, ?_, ?_⟩
    · exact fun x hx => (notSpaceAt_iff x).mp (hpa x hx)
    · exact fun x hx => (notSpaceAt_iff x).mp (hpb x hx)
    · exact fun x hx => (notSpaceAt_iff x).mp (hpc x hx)
  · rintro ⟨a, b, c, hs, ha, hb, hc, hpa, hpb, hpc⟩
    refine ⟨a, _, hs, ha, fun x hx => (notSpaceAt_iff x).mpr (hpa x hx), ?_⟩
    refine (lit_iff _ _ _).mpr ⟨_, rfl, ?_⟩
    refine (oneOrMore_iff _ _ _).mpr
      ⟨b, _, rfl, hb, fun x hx => (notSpaceAt_iff x).mpr (hpb x hx), ?_⟩
    refine (lit_iff _ _ _).mpr ⟨_, rfl, ?_⟩
    exact (oneOrMore_iff _ _ _).mpr
      ⟨c, [], by simp, hc, fun x hx => (notSpaceAt_iff x).mpr (hpc x hx), rfl⟩

/-! ## Method and configuration gates -/

theorem corsHeaders_noCreate : ∀ e ∈ corsHeaders, e.isCreate = false := by
  intro e he
  simp [corsHeaders] at he
  rcases he with rfl | rfl | rfl <;> rfl

theorem corsHeaders_noSend : ∀ e ∈ corsHeaders, e.isSend = false := by
  intro e he
  simp [corsHeaders] at he
  rcases he with rfl | rfl | rfl <;> rfl

theorem envTruthy_of_absent {v : Option String} (h : envAbsent v) : envTruthy v = false := by
  rcases h with rfl | rfl <;> rfl

theorem credentials_gate {env : Env} (h : env.hasStoreCredentials = true) :
    envTruthy env.NOTION_API_KEY = true ∧ envTruthy env.NOTION_DATABASE_ID = true := by
  unfold Env.hasStoreCredentials at h
  split at h
  · next k d hk hd =>
    rw [hk, hd]
    simpa [envTruthy, strTruthy] using h
  · exact absurd h (by simp)

/-! ## Required fields -/

theorem truthy_of_isMissing {v : JsVal} (h : v.isMissing = true) : v.truthy = false := by
  cases v <;> simp_all [JsVal.isMissing, JsVal.truthy, strTruthy]

theorem post_ne_options : ("POST" : String) ≠ "OPTIONS" := by decide

/-- The catch block of the form controller shows the error when the element exists. -/
theorem submitCatch_shows (err : Fault) (fb : FeedbackEl) :
    showsError (submitCatch err (some fb)).1 ∧ (submitCatch err (some fb)).2.2 = none ∧
      ∀ e ∈ (submitCatch err (some fb)).2.1, e.isFetch = false := by
  refine ⟨⟨_, rfl⟩, rfl, ?_⟩
  intro e he
  simp [submitCatch, showFeedback] at he
  rcases he with rfl | rfl <;> rfl

/-- With a required input missing the `try` block throws before any request. -/
theorem submitTry_missing (b : Browser) (i : FormInputs) (fb : Option FeedbackEl)
    (h : inputMissing i.name ∨ inputMissing i.email ∨ inputMissing i.company ∨
      inputMissing i.company_size) :
    ∃ err, submitTry b i fb = (fb, [], .error err) := by
  have ht : jsTrim "" = "" := by decide
  obtain ⟨n, e, p, c, cs, ch⟩ := i
  simp only [inputMissing] at h
  cases n <;> cases e <;> cases p <;> cases c <;> cases cs <;> cases ch <;>
    simp [submitTry, collectFormData, trimmedValue, rawValue, bind, Except.bind, pure,
      Except.pure] at h ⊢
  rcases h with rfl | rfl | rfl | rfl <;> simp [ht, strTruthy]

/-! ## The record-creation stage -/

theorem trimOf_ok {v : JsVal} {t : String} (h : trimOf v = .ok t) :
    ∃ s, v = .str s ∧ t = jsTrim s := by
  cases v <;> simp [trimOf] at h
  exact ⟨_, rfl, h.symm⟩

theorem trimmedIfAny_ok {v : JsVal} {o : Option String} (h : trimmedIfAny v = .ok o) :
    v.truthy = false ∨ ∃ s, v = .str s := by
  by_cases ht : v.truthy = true
  · right
    simp only [trimmedIfAny, ht, if_true] at h
    cases v <;> simp [trimOf] at h ⊢
  · left
    simpa using ht

theorem buildCreateArgs_ok {env : Env} {w : World} {f : Fields} {size : String}
    {args : CreateArgs} (h : buildCreateArgs env w f size = .ok args) :
    (∃ n, f.name = .str n ∧ args.Name = jsTrim n) ∧
    (∃ e, f.email = .str e ∧ args.Email = w.toLowerCase (jsTrim e)) ∧
    (∃ c, f.company = .str c ∧ args.Entreprise = jsTrim c) ∧
    (f.phone.truthy = false ∨ ∃ s, f.phone = .str s) ∧
    (f.challenge.truthy = false ∨ ∃ s, f.challenge = .str s) ∧
    args.Taille = size := by
  unfold buildCreateArgs at h
  simp only [bind, Except.bind, pure, Except.pure] at h
  cases h₁ : trimOf f.name with
  | error e => simp [h₁] at h
  | ok n =>
    cases h₂ : trimOf f.email with
    | error e => simp [h₁, h₂] at h
    | ok e =>
      cases h₃ : trimmedIfAny f.phone with
      | error e => simp [h₁, h₂, h₃] at h
      | ok p =>
        cases h₄ : trimOf f.company with
        | error e => simp [h₁, h₂, h₃, h₄] at h
        | ok c =>
          cases h₅ : trimmedIfAny f.challenge with
          | error e => simp [h₁, h₂, h₃, h₄, h₅] at h
          | ok ch =>
            simp only [h₁, h₂, h₃, h₄, h₅, Except.ok.injEq] at h
            subst h
            obtain ⟨n', hn, rfl⟩ := trimOf_ok h₁
            obtain ⟨e', he, rfl⟩ := trimOf_ok h₂
            obtain ⟨c', hc, rfl⟩ := trimOf_ok h₄
            exact ⟨⟨n', hn, rfl⟩, ⟨e', he, rfl⟩, ⟨c', hc, rfl⟩, trimmedIfAny_ok h₃,
              trimmedIfAny_ok h₅, rfl⟩

theorem buildLeadData_ok {env : Env} {w : World} {f : Fields} {size : String}
    {args : CreateArgs} (h : buildCreateArgs env w f size = .ok args) (page : NotionPage) :
    ∃ d, buildLeadData f size page = .ok d := by
  obtain ⟨⟨n, hn, -⟩, ⟨e, he, -⟩, ⟨c, hc, -⟩, hp, hch, -⟩ := buildCreateArgs_ok h
  have hopt : ∀ v : JsVal, (v.truthy = false ∨ ∃ s, v = .str s) →
      ∃ t, orNonRenseigne v = .ok t := by
    intro v hv
    rcases hv with hv | ⟨s, rfl⟩
    · exact ⟨"Non renseigné", by simp [orNonRenseigne, hv]⟩
    · by_cases ht : (JsVal.str s).truthy = true
      · exact ⟨s, by simp [orNonRenseigne, ht, strOf]⟩
      · exact ⟨"Non renseigné", by simp [orNonRenseigne, ht]⟩
  obtain ⟨p, hp⟩ := hopt _ hp
  obtain ⟨ch, hch⟩ := hopt _ hch
  exact ⟨⟨n, e, p, c, size, ch, page.url⟩,
    by simp [buildLeadData, hn, he, hc, hp, hch, strOf, bind, Except.bind, pure, Except.pure]⟩

theorem sendEmailNotification_effects (env : Env) (w : World) (d : LeadData) :
    (sendEmailNotification env w d).1 =
      if envTruthy env.SENDGRID_API_KEY then
        [.sgSend (sgMessage env (env.SENDGRID_API_KEY.getD "") d)]
      else if envTruthy env.RESEND_API_KEY then
        [.resendFetch (resendRequest (env.RESEND_API_KEY.getD "") d)]
      else
        [.consoleWarn
          "⚠️ Aucune API email configurée. Configurez SENDGRID_API_KEY ou RESEND_API_KEY"] := by
  unfold sendEmailNotification
  by_cases h₁ : envTruthy env.SENDGRID_API_KEY = true
  · simp [h₁]
  · by_cases h₂ : envTruthy env.RESEND_API_KEY = true
    · simp only [h₁, h₂, if_true, if_false]
      cases w.resendFetch (resendRequest (env.RESEND_API_KEY.getD "") d) with
      | error e => rfl
      | ok ok => cases ok <;> rfl
    · simp [h₁, h₂]

theorem sendEmailNotification_noCreate (env : Env) (w : World) (d : LeadData) :
    ∀ x ∈ (sendEmailNotification env w d).1, x.isCreate = false := by
  intro x hx
  rw [sendEmailNotification_effects] at hx
  split_ifs at hx <;> (simp at hx; subst hx; rfl)

theorem tryBlock_create_mem {env : Env} {w : World} {f : Fields} {size : String}
    {a : CreateArgs} (h : Effect.pagesCreate a ∈ (tryBlock env w f size).1) :
    buildCreateArgs env w f size = .ok a := by
  unfold tryBlock at h
  cases hb : buildCreateArgs env w f size with
  | error e => simp [hb] at h
  | ok args =>
    simp only [hb] at h
    cases hc : w.pagesCreate args with
    | error e =>
      simp [hc] at h
      rw [h]
    | ok page =>
      obtain ⟨d, hd⟩ := buildLeadData_ok hb page
      simp only [hc, hd, List.mem_append, List.mem_cons] at h
      rcases h with ((h | h | h) | h) | h
      · rw [Effect.pagesCreate.injEq] at h
        rw [h]
      · exact absurd h (by simp)
      · exact absurd h (by simp)
      · have := sendEmailNotification_noCreate env w d _ h
        simp [Effect.isCreate] at this
      · split at h <;> simp at h

theorem create_not_mem_cors (a : CreateArgs) : Effect.pagesCreate a ∉ corsHeaders := by
  simp [corsHeaders]

theorem catchBlock_effects (err : Fault) :
    (catchBlock err).1 = [Effect.consoleError "❌ Erreur lors de la soumission:"] := by
  unfold catchBlock
  split_ifs <;> rfl

theorem strTruthy_of_validSize {size : String} (h : validSizes.contains size = true) :
    strTruthy size = true := by
  simp only [validSizes, List.contains_iff_exists_mem_beq, List.mem_cons, beq_iff_eq] at h
  obtain ⟨x, hx, rfl⟩ := h
  simp only [List.mem_singleton, List.not_mem_nil, or_false] at hx
  rcases hx with rfl | rfl | rfl | rfl <;> decide

/-- The run of the handler on a request that passes the three validations. -/
theorem handler_valid {env : Env} {w : World} {req : Request} {f : Fields} {e size : String}
    (hm : req.method = "POST") (hk : envTruthy env.NOTION_API_KEY = true)
    (hd : envTruthy env.NOTION_DATABASE_ID = true) (hf : destructure req.body = some f)
    (hn : f.name.truthy = true) (hem : f.email.truthy = true) (hc : f.company.truthy = true)
    (he : f.email.toStr = some e) (hre : emailRegexTest e = true)
    (hsize : f.company_size = .str size) (hin : validSizes.contains size = true) :
    handler env w req =
      (match tryBlock env w f size with
       | (effs, .ok r) => { effects := corsHeaders ++ effs, completion := .responded r }
       | (effs, .error err) =>
         { effects := corsHeaders ++ effs ++ (catchBlock err).1
           completion := .responded (catchBlock err).2 }) := by
  have hs : (JsVal.str size).truthy = true := strTruthy_of_validSize hin
  simp only [handler, hm, post_ne_options, hk, hd, hf, hn, hem, hc, he, hre, hsize, hs, hin]
  simp

theorem handler_create_inv {env : Env} {w : World} {req : Request} {a : CreateArgs}
    (h : Effect.pagesCreate a ∈ (handler env w req).effects) :
    ∃ f e size, req.method = "POST" ∧ envTruthy env.NOTION_API_KEY = true ∧
      envTruthy env.NOTION_DATABASE_ID = true ∧ destructure req.body = some f ∧
      f.name.truthy = true ∧ f.email.truthy = true ∧ f.company.truthy = true ∧
      f.email.toStr = some e ∧ emailRegexTest e = true ∧
      f.company_size = .str size ∧ validSizes.contains size = true ∧
      buildCreateArgs env w f size = .ok a := by
  by_cases hm₁ : req.method = "OPTIONS"
  · simp [handler, hm₁, corsHeaders] at h
  by_cases hm₂ : req.method = "POST"
  swap
  · simp [handler, hm₁, hm₂, corsHeaders] at h
  by_cases hk : envTruthy env.NOTION_API_KEY = true
  swap
  · simp [handler, hm₁, hm₂, hk, corsHeaders] at h
  by_cases hd : envTruthy env.NOTION_DATABASE_ID = true
  swap
  · simp [handler, hm₁, hm₂, hd, corsHeaders] at h
  cases hf : destructure req.body with
  | none => simp [handler, hm₁, hm₂, hk, hd, hf, corsHeaders] at h
  | some f =>
    by_cases hn : f.name.truthy = true
    swap
    · simp [handler, hm₁, hm₂, hk, hd, hf, hn, corsHeaders] at h
    by_cases hem : f.email.truthy = true
    swap
    · simp [handler, hm₁, hm₂, hk, hd, hf, hem, corsHeaders] at h
    by_cases hc : f.company.truthy = true
    swap
    · simp [handler, hm₁, hm₂, hk, hd, hf, hc, corsHeaders] at h
    by_cases hcs : f.company_size.truthy = true
    swap
    · simp [handler, hm₁, hm₂, hk, hd, hf, hcs, corsHeaders] at h
    cases he : f.email.toStr with
    | none => simp [handler, hm₁, hm₂, hk, hd, hf, hn, hem, hc, hcs, he, corsHeaders] at h
    | some e =>
      by_cases hre : emailRegexTest e = true
      swap
      · simp [handler, hm₁, hm₂, hk, hd, hf, hn, hem, hc, hcs, he, hre, corsHeaders] at h
      cases hsize : f.company_size with
      | str size =>
        by_cases hin : validSizes.contains size = true
        · refine ⟨f, e, size, hm₂, hk, hd, rfl, hn, hem, hc, he, hre, hsize, hin, ?_⟩
          rw [handler_valid hm₂ hk hd hf hn hem hc he hre hsize hin] at h
          apply tryBlock_create_mem
          rcases htb : tryBlock env w f size with ⟨effs, r | r⟩ <;>
            simpa [htb, corsHeaders, catchBlock_effects] using h
        · rw [hsize] at hcs
          have hin' : size ∉ validSizes := by simpa using hin
          simp [handler, hm₁, hm₂, hk, hd, hf, hn, hem, hc, hcs, he, hre, hsize, hin',
            corsHeaders] at h
      | _ =>
        rw [hsize] at hcs
        simp [handler, hm₁, hm₂, hk, hd, hf, hn, hem, hc, hcs, he, hre, hsize, corsHeaders] at h

theorem tryBlock_created {env : Env} {w : World} {f : Fields} {size : String}
    {args : CreateArgs} {page : NotionPage} (hb : buildCreateArgs env w f size = .ok args)
    (hp : w.pagesCreate args = .ok page) :
    (tryBlock env w f size).2 =
      .ok ⟨200, .json ⟨true, "Lead enregistré avec succès", some page.id, none⟩⟩ ∧
    Effect.pagesCreate args ∈ (tryBlock env w f size).1 := by
  obtain ⟨d, hd⟩ := buildLeadData_ok hb page
  simp [tryBlock, hb, hp, hd]

theorem tryBlock_fault {env : Env} {w : World} {f : Fields} {size : String}
    {args : CreateArgs} {err : Fault} (hb : buildCreateArgs env w f size = .ok args)
    (hp : w.pagesCreate args = .error err) :
    tryBlock env w f size = ([.pagesCreate args], .error err) := by
  simp [tryBlock, hb, hp]

theorem buildCreateArgs_congr {env env' : Env} {w w' : World} (f : Fields) (size : String)
    (hd : env'.NOTION_DATABASE_ID = env.NOTION_DATABASE_ID) (ht : w'.today = w.today)
    (hl : w'.toLowerCase = w.toLowerCase) :
    buildCreateArgs env' w' f size = buildCreateArgs env w f size := by
  simp only [buildCreateArgs, hd, ht, hl]

/-! ## The three validations -/

theorem strTruthy_iff (s : String) : strTruthy s = true ↔ s ≠ "" := by
  obtain ⟨d⟩ := s
  cases d with
  | nil => simp [strTruthy]
  | cons c cs =>
    simp only [strTruthy, List.isEmpty_cons, Bool.not_false, true_iff]
    intro h
    exact absurd (congrArg String.data h) (by simp)

theorem isText_iff {v : JsVal} : v.isText = true ↔ ∃ s, v = .str s ∧ strTruthy s = true := by
  cases v <;> simp [JsVal.isText, strTruthy]

theorem reject_required {env : Env} {w : World} {body : JsVal} {f : Fields}
    (hk : envTruthy env.NOTION_API_KEY = true) (hd : envTruthy env.NOTION_DATABASE_ID = true)
    (hf : destructure body = some f)
    (hg : (!f.name.truthy || !f.email.truthy || !f.company.truthy || !f.company_size.truthy)
      = true) :
    handler env w ⟨"POST", body⟩ =
      { effects := corsHeaders
        completion :=
          .responded (failure 400 "Tous les champs obligatoires doivent être remplis.") } := by
  simp only [handler, post_ne_options, hk, hd, hf, hg]
  simp

theorem reject_email {env : Env} {w : World} {body : JsVal} {f : Fields} {e : String}
    (hk : envTruthy env.NOTION_API_KEY = true) (hd : envTruthy env.NOTION_DATABASE_ID = true)
    (hf : destructure body = some f)
    (hn : f.name.truthy = true) (hem : f.email.truthy = true) (hc : f.company.truthy = true)
    (hcs : f.company_size.truthy = true) (he : f.email.toStr = some e)
    (hre : emailRegexTest e = false) :
    handler env w ⟨"POST", body⟩ =
      { effects := corsHeaders
        completion := .responded (failure 400 "Adresse email invalide.") } := by
  simp only [handler, post_ne_options, hk, hd, hf, hn, hem, hc, hcs, he, hre]
  simp

theorem reject_size {env : Env} {w : World} {body : JsVal} {f : Fields} {e : String}
    (hk : envTruthy env.NOTION_API_KEY = true) (hd : envTruthy env.NOTION_DATABASE_ID = true)
    (hf : destructure body = some f)
    (hn : f.name.truthy = true) (hem : f.email.truthy = true) (hc : f.company.truthy = true)
    (hcs : f.company_size.truthy = true) (he : f.email.toStr = some e)
    (hre : emailRegexTest e = true)
    (hsz : ∀ s, f.company_size = .str s → validSizes.contains s = false) :
    handler env w ⟨"POST", body⟩ =
      { effects := corsHeaders
        completion := .responded (failure 400 "Taille d'entreprise invalide.") } := by
  cases hsize : f.company_size with
  | str size =>
    have hin := hsz size hsize
    rw [hsize] at hcs
    simp only [handler, post_ne_options, hk, hd, hf, hn, hem, hc, hcs, he, hre, hsize, hin]
    simp
  | _ =>
    rw [hsize] at hcs
    simp only [handler, post_ne_options, hk, hd, hf, hn, hem, hc, hcs, he, hre, hsize]
    simp

theorem trimmedIfAny_optional {v : JsVal} (h : v.isOptionalText = true) :
    ∃ o, trimmedIfAny v = .ok o := by
  cases v <;> simp [JsVal.isOptionalText] at h
  · exact ⟨none, rfl⟩
  · exact ⟨none, rfl⟩
  · next s =>
    by_cases ht : strTruthy s = true
    · exact ⟨if strTruthy (jsTrim s) then some (jsTrim s) else none,
        by simp [trimmedIfAny, JsVal.truthy, ht, trimOf]⟩
    · exact ⟨none, by simp [trimmedIfAny, JsVal.truthy, ht]⟩

theorem buildCreateArgs_valid (env : Env) (w : World) {f : Fields} {n e c : String}
    (size : String) (hn : f.name = .str n) (he : f.email = .str e) (hc : f.company = .str c)
    (hp : f.phone.isOptionalText = true) (hch : f.challenge.isOptionalText = true) :
    ∃ args, buildCreateArgs env w f size = .ok args ∧ args.Name = jsTrim n ∧
      args.Email = w.toLowerCase (jsTrim e) ∧ args.Entreprise = jsTrim c ∧
      args.Taille = size := by
  obtain ⟨p, hp⟩ := trimmedIfAny_optional hp
  obtain ⟨ch, hch⟩ := trimmedIfAny_optional hch
  exact ⟨_, by simp [buildCreateArgs, hn, he, hc, hp, hch, trimOf, bind, Except.bind, pure,
    Except.pure]; rfl, rfl, rfl, rfl, rfl⟩

theorem tryBlock_calls {env : Env} {w : World} {f : Fields} {size : String}
    {args : CreateArgs} (hb : buildCreateArgs env w f size = .ok args) :
    Effect.pagesCreate args ∈ (tryBlock env w f size).1 := by
  cases hp : w.pagesCreate args with
  | error err => simp [tryBlock_fault hb hp]
  | ok page => exact (tryBlock_created hb hp).2

theorem handler_valid_effects {env : Env} {w : World} {req : Request} {f : Fields}
    {e size : String}
    (hm : req.method = "POST") (hk : envTruthy env.NOTION_API_KEY = true)
    (hd : envTruthy env.NOTION_DATABASE_ID = true) (hf : destructure req.body = some f)
    (hn : f.name.truthy = true) (hem : f.email.truthy = true) (hc : f.company.truthy = true)
    (he : f.email.toStr = some e) (hre : emailRegexTest e = true)
    (hsize : f.company_size = .str size) (hin : validSizes.contains size = true) :
    (∀ x ∈ (tryBlock env w f size).1, x ∈ (handler env w req).effects) ∧
    (handler env w req).completion =
      (match (tryBlock env w f size).2 with
       | .ok r => .responded r
       | .error err => .responded (catchBlock err).2) := by
  rw [handler_valid hm hk hd hf hn hem hc he hre hsize hin]
  rcases htb : tryBlock env w f size with ⟨effs, r | r⟩
  · exact ⟨fun x hx => by simp [hx], rfl⟩
  · exact ⟨fun x hx => by simp [hx], rfl⟩

theorem tryBlock_not_validation (env : Env) (w : World) (f : Fields) (size : String) :
    (match (tryBlock env w f size).2 with
       | .ok r => Completion.responded r
       | .error err => .responded (catchBlock err).2) ∉ validationResponses := by
  have hc : ∀ err, Completion.responded (catchBlock err).2 ∉ validationResponses := by
    intro err
    unfold catchBlock
    split_ifs <;> simp [validationResponses, failure]
  cases hb : buildCreateArgs env w f size with
  | error err => simpa [tryBlock, hb] using hc err
  | ok args =>
    cases hp : w.pagesCreate args with
    | error err => simpa [tryBlock, hb, hp] using hc err
    | ok page =>
      cases hl : buildLeadData f size page with
      | error err => simpa [tryBlock, hb, hp, hl] using hc err
      | ok d => simp [tryBlock, hb, hp, hl, validationResponses, failure]

/-- Once the validations are passed no answer is a 400 without `details`: the `try`
block answers 200, and the `catch` block answers 500 or the 400 that carries `details`. -/
theorem tryBlock_not_plain_400 (env : Env) (w : World) (f : Fields) (size msg : String) :
    (match (tryBlock env w f size).2 with
       | .ok r => Completion.responded r
       | .error err => .responded (catchBlock err).2) ≠
      .responded ⟨400, .json ⟨false, msg, none, none⟩⟩ := by
  have hc : ∀ err, Completion.responded (catchBlock err).2 ≠
      .responded ⟨400, .json ⟨false, msg, none, none⟩⟩ := by
    intro err
    unfold catchBlock
    split_ifs <;> simp [failure]
  cases hb : buildCreateArgs env w f size with
  | error err => simpa [tryBlock, hb] using hc err
  | ok args =>
    cases hp : w.pagesCreate args with
    | error err => simpa [tryBlock, hb, hp] using hc err
    | ok page =>
      cases hl : buildLeadData f size page with
      | error err => simpa [tryBlock, hb, hp, hl] using hc err
      | ok d => simp [tryBlock, hb, hp, hl]

theorem validSize_str {v : JsVal} (h : v.IsValidSize) :
    ∃ s, v = .str s ∧ validSizes.contains s = true := by
  rcases h with rfl | rfl | rfl | rfl
  · exact ⟨"1-5", rfl, by decide⟩
  · exact ⟨"6-20", rfl, by decide⟩
  · exact ⟨"21-50", rfl, by decide⟩
  · exact ⟨"50+", rfl, by decide⟩

theorem destructure_obj (props : List (String × JsVal)) :
    destructure (.obj props) =
      some ⟨lookupProp "name" props, lookupProp "email" props, lookupProp "phone" props,
        lookupProp "company" props, lookupProp "company_size" props,
        lookupProp "challenge" props⟩ := rfl

theorem regex_false_of_not_matches {e : String} (h : ¬ MatchesEmailPattern e) :
    emailRegexTest e = false := by
  cases ht : emailRegexTest e with
  | false => rfl
  | true => exact absurd ((emailRegexTest_iff e).mp ht) h

theorem truthy_of_matches {e : String} (h : MatchesEmailPattern e) : strTruthy e = true := by
  obtain ⟨a, b, c, hs, ha, -⟩ := h
  cases a with
  | nil => exact absurd rfl ha
  | cons x xs => simp [strTruthy, hs]

/-- A rejected email on the server: whatever the other fields, the answer is a 400 of
one of the first two validations and the effects are the headers only. -/
theorem server_rejects_email {env : Env} {w : World} {props : List (String × JsVal)}
    {e : String} (hcr : env.hasStoreCredentials = true)
    (hem : lookupProp "email" props = .str e) (hno : ¬ MatchesEmailPattern e) :
    ∃ msg, handler env w ⟨"POST", .obj props⟩ =
      { effects := corsHeaders, completion := .responded (failure 400 msg) } := by
  obtain ⟨hk, hd⟩ := credentials_gate hcr
  have hf := destructure_obj props
  by_cases hg : (!(lookupProp "name" props).truthy || !(lookupProp "email" props).truthy ||
      !(lookupProp "company" props).truthy || !(lookupProp "company_size" props).truthy) = true
  · exact ⟨_, reject_required hk hd hf hg⟩
  · simp only [Bool.not_eq_true, Bool.or_eq_false_iff, Bool.not_eq_false'] at hg
    obtain ⟨⟨⟨h₁, h₂⟩, h₃⟩, h₄⟩ := hg
    refine ⟨_, reject_email (e := e) hk hd hf h₁ h₂ h₃ h₄ ?_ (regex_false_of_not_matches hno)⟩
    simp [hem, JsVal.toStr]

/-- An email that matches is never answered with the email rejection. -/
theorem server_accepts_email {env : Env} {w : World} {props : List (String × JsVal)}
    {e : String} (hcr : env.hasStoreCredentials = true)
    (hem : lookupProp "email" props = .str e) (hyes : MatchesEmailPattern e) :
    (handler env w ⟨"POST", .obj props⟩).completion ≠
      .responded (failure 400 "Adresse email invalide.") := by
  obtain ⟨hk, hd⟩ := credentials_gate hcr
  have hf := destructure_obj props
  have hre := (emailRegexTest_iff e).mpr hyes
  by_cases hg : (!(lookupProp "name" props).truthy || !(lookupProp "email" props).truthy ||
      !(lookupProp "company" props).truthy || !(lookupProp "company_size" props).truthy) = true
  · rw [reject_required hk hd hf hg]
    simp [failure]
  · simp only [Bool.not_eq_true, Bool.or_eq_false_iff, Bool.not_eq_false'] at hg
    obtain ⟨⟨⟨h₁, h₂⟩, h₃⟩, h₄⟩ := hg
    have he : (lookupProp "email" props).toStr = some e := by simp [hem, JsVal.toStr]
    by_cases hsz : ∀ s, lookupProp "company_size" props = .str s →
        validSizes.contains s = false
    · rw [reject_size (e := e) hk hd hf h₁ h₂ h₃ h₄ he hre hsz]
      simp [failure]
    · push_neg at hsz
      obtain ⟨size, hsize, hin⟩ := hsz
      simp only [ne_eq, Bool.not_eq_false] at hin
      rw [(handler_valid_effects (e := e) rfl hk hd hf h₁ h₂ h₃ he hre hsize hin).2]
      intro h
      have := tryBlock_not_validation env w ⟨lookupProp "name" props, lookupProp "email" props,
        lookupProp "phone" props, lookupProp "company" props,
        lookupProp "company_size" props, lookupProp "challenge" props⟩ size
      rw [h] at this
      simp [validationResponses] at this

/-- A submission whose fields are all valid reaches the record-creation call. -/
theorem server_creates {env : Env} {w : World} {props : List (String × JsVal)}
    {e : String} (hcr : env.hasStoreCredentials = true)
    (hn : (lookupProp "name" props).isText = true)
    (hem : lookupProp "email" props = .str e) (hyes : MatchesEmailPattern e)
    (hc : (lookupProp "company" props).isText = true)
    (hs : (lookupProp "company_size" props).IsValidSize)
    (hp : (lookupProp "phone" props).isOptionalText = true)
    (hch : (lookupProp "challenge" props).isOptionalText = true) :
    ∃ args, Effect.pagesCreate args ∈ (handler env w ⟨"POST", .obj props⟩).effects ∧
      args.Email = w.toLowerCase (jsTrim e) ∧
      lookupProp "company_size" props = .str args.Taille := by
  obtain ⟨hk, hd⟩ := credentials_gate hcr
  have hf := destructure_obj props
  have hre := (emailRegexTest_iff e).mpr hyes
  obtain ⟨n, hn, hnt⟩ := isText_iff.mp hn
  obtain ⟨c, hc, hct⟩ := isText_iff.mp hc
  obtain ⟨size, hsize, hin⟩ := validSize_str hs
  obtain ⟨args, hb, -, hae, -, hat⟩ :=
    buildCreateArgs_valid env w (f := ⟨lookupProp "name" props, lookupProp "email" props,
      lookupProp "phone" props, lookupProp "company" props, lookupProp "company_size" props,
      lookupProp "challenge" props⟩) size hn hem hc hp hch
  have h₁ : (lookupProp "name" props).truthy = true := by simp [hn, JsVal.truthy, hnt]
  have h₂ : (lookupProp "email" props).truthy = true := by
    simp [hem, JsVal.truthy, truthy_of_matches hyes]
  have h₃ : (lookupProp "company" props).truthy = true := by simp [hc, JsVal.truthy, hct]
  have he : (lookupProp "email" props).toStr = some e := by simp [hem, JsVal.toStr]
  refine ⟨args, ?_, hae, by rw [hat]; exact hsize⟩
  exact (handler_valid_effects (e := e) rfl hk hd hf h₁ h₂ h₃ he hre hsize hin).1 _
    (tryBlock_calls hb)

/-! ## The form controller -/

/-- With an email that fails the pattern the `try` block throws before any request. -/
theorem submitTry_email_reject (b : Browser) (i : FormInputs) (fb : Option FeedbackEl)
    {v : String} (hv : i.email = some v) (hre : emailRegexTest (jsTrim v) = false) :
    ∃ err, submitTry b i fb = (fb, [], .error err) := by
  obtain ⟨n, e, p, c, cs, ch⟩ := i
  simp only at hv
  subst hv
  cases n <;> cases p <;> cases c <;> cases cs <;> cases ch <;>
    simp [submitTry, collectFormData, trimmedValue, rawValue, bind, Except.bind, pure,
      Except.pure, hre]
  split_ifs <;> simp

theorem submitTry_posts (b : Browser) (fb : Option FeedbackEl) {n v p c cs ch : String}
    (hn : strTruthy (jsTrim n) = true) (hc : strTruthy (jsTrim c) = true)
    (hcs : strTruthy cs = true) (hre : emailRegexTest (jsTrim v) = true) :
    ClientEffect.fetchPost "/api/submit-lead" "POST" "application/json"
        ⟨jsTrim n, jsTrim v, jsTrim p, jsTrim c, cs, jsTrim ch⟩ ∈
      (submitTry b ⟨some n, some v, some p, some c, some cs, some ch⟩ fb).2.1 := by
  have hv : strTruthy (jsTrim v) = true :=
    truthy_of_matches ((emailRegexTest_iff _).mp hre)
  simp only [submitTry, collectFormData, trimmedValue, rawValue, bind, Except.bind, pure,
    Except.pure, hn, hc, hcs, hv, hre]
  simp only [Bool.not_true, Bool.or_self, Bool.false_eq_true, if_false]
  cases b.fetch ⟨jsTrim n, jsTrim v, jsTrim p, jsTrim c, cs, jsTrim ch⟩ with
  | error err => simp
  | ok response =>
    simp only
    cases response.json with
    | error err => simp
    | ok result =>
      simp only
      cases response.ok with
      | false => simp
      | true =>
        cases fb with
        | none => simp [showFeedback]
        | some el =>
          cases b.gtag with
          | none => simp [showFeedback]
          | some r => simp [showFeedback]

/-- A run whose `try` block throws before any request: nothing is sent, and on a page
with both elements the error is shown. -/
theorem onSubmit_of_early_throw (b : Browser) (dom : Dom)
    (h : ∀ fb, ∃ err, submitTry b dom.inputs fb = (fb, [], .error err)) :
    (onSubmit b dom).noFetch ∧
    (dom.submitBtn.isSome = true → dom.feedback.isSome = true →
      showsError (onSubmit b dom).feedback ∧ (onSubmit b dom).escaped = none) := by
  obtain ⟨btn, fb, i⟩ := dom
  cases btn with
  | none =>
    refine ⟨?_, fun h => absurd h (by simp)⟩
    intro e he
    simp [onSubmit] at he
    subst he
    rfl
  | some btn =>
    cases fb with
    | none =>
      refine ⟨?_, fun _ h => absurd h (by simp)⟩
      intro e he
      simp [onSubmit] at he
      subst he
      rfl
    | some fb =>
      obtain ⟨err, htry⟩ := h (some { fb with display := "none" })
      obtain ⟨hs, hesc, hnf⟩ := submitCatch_shows err { fb with display := "none" }
      simp only at htry
      refine ⟨?_, fun _ _ => ⟨?_, ?_⟩⟩
      · intro e he
        simp only [onSubmit, htry] at he
        rcases List.mem_cons.mp he with rfl | he
        · rfl
        · exact hnf e he
      · simpa only [onSubmit, htry] using hs
      · simpa only [onSubmit, htry] using hesc

theorem onSubmit_effects_of_try (b : Browser) (btn : Button) (fb : FeedbackEl)
    (i : FormInputs) :
    ∀ x ∈ (submitTry b i (some { fb with display := "none" })).2.1,
      x ∈ (onSubmit b ⟨some btn, some fb, i⟩).effects := by
  intro x hx
  simp only [onSubmit]
  rcases htry : submitTry b i (some { fb with display := "none" }) with ⟨fb', effs, r | r⟩ <;>
    simp_all

/-! ## The notification stage -/

theorem envTruthy_of_present {v : Option String} (h : envPresent v) : envTruthy v = true := by
  obtain ⟨k, rfl, hk⟩ := h
  exact (strTruthy_iff k).mpr hk

theorem Mentions.tail (a p : String) : Mentions (a ++ p) p :=
  ⟨a, "", by simp⟩

theorem Mentions.left {a p : String} (b : String) (h : Mentions a p) : Mentions (a ++ b) p := by
  obtain ⟨pre, post, rfl⟩ := h
  exact ⟨pre, post ++ b, by simp [String.append_assoc]⟩

theorem sgText_summarizes (d : LeadData) : Summarizes (sgText d) d := by
  unfold Summarizes sgText
  refine ⟨?_, ?_, ?_, ?_, ?_, ?_, ?_⟩ <;>
    repeat (first | exact Mentions.tail _ _ | apply Mentions.left)

theorem sgHtml_summarizes (d : LeadData) : Summarizes (sgHtml d) d := by
  unfold Summarizes sgHtml
  refine ⟨?_, ?_, ?_, ?_, ?_, ?_, ?_⟩ <;>
    repeat (first | exact Mentions.tail _ _ | apply Mentions.left)

theorem resendHtml_summarizes (d : LeadData) : Summarizes (resendHtml d) d := by
  unfold Summarizes resendHtml
  refine ⟨?_, ?_, ?_, ?_, ?_, ?_, ?_⟩ <;>
    repeat (first | exact Mentions.tail _ _ | apply Mentions.left)

theorem sendCount_append (a b : List Effect) : sendCount (a ++ b) = sendCount a + sendCount b := by
  simp [sendCount]

theorem sendCount_of_noSend {l : List Effect} (h : ∀ x ∈ l, x.isSend = false) :
    sendCount l = 0 := by
  simp only [sendCount, List.length_eq_zero, List.filter_eq_nil_iff]
  intro x hx
  simp [h x hx]

theorem sendCount_notification (env : Env) (w : World) (d : LeadData) :
    sendCount (sendEmailNotification env w d).1 ≤ 1 := by
  rw [sendEmailNotification_effects]
  split_ifs <;> simp [sendCount, Effect.isSend]

theorem buildLeadData_fields {f : Fields} {size : String} {page : NotionPage} {d : LeadData}
    (h : buildLeadData f size page = .ok d) :
    d.notionUrl = page.url ∧ d.company_size = size ∧ f.name = .str d.name ∧
      f.email = .str d.email ∧ f.company = .str d.company := by
  unfold buildLeadData at h
  simp only [bind, Except.bind, pure, Except.pure] at h
  cases hn : f.name <;> simp [hn, strOf] at h
  cases he : f.email <;> simp [he, strOf] at h
  cases hp : orNonRenseigne f.phone <;> simp [hp] at h
  cases hc : f.company <;> simp [hc, strOf] at h
  cases hch : orNonRenseigne f.challenge <;> simp [hch] at h
  subst h
  simp

/-- The effects of the `try` block: without a created record there is no send; with one,
they are the create call, the log line, the effects of the notification for the lead data
built with that record, and one more log line. -/
theorem tryBlock_shape (env : Env) (w : World) (f : Fields) (size : String) :
    (∀ x ∈ (tryBlock env w f size).1, x.isSend = false) ∨
    ∃ args page d logged, w.pagesCreate args = .ok page ∧
      buildLeadData f size page = .ok d ∧
      (tryBlock env w f size).1 =
        [Effect.pagesCreate args, Effect.consoleLog "✅ Lead créé dans Notion:"] ++
          (sendEmailNotification env w d).1 ++ logged ∧
      (∀ x ∈ logged, x.isSend = false) ∧ (∃ r, (tryBlock env w f size).2 = .ok r) := by
  cases hb : buildCreateArgs env w f size with
  | error err =>
    left
    simp [tryBlock, hb]
  | ok args =>
    cases hp : w.pagesCreate args with
    | error err =>
      left
      simp [tryBlock, hb, hp, Effect.isSend]
    | ok page =>
      obtain ⟨d, hd⟩ := buildLeadData_ok hb page
      right
      refine ⟨args, page, d,
        (match (sendEmailNotification env w d).2 with
          | .ok _ => [Effect.consoleLog "✅ Email de notification envoyé"]
          | .error _ => [Effect.consoleError "⚠️ Erreur envoi email (non bloquant):"]),
        hp, hd, by simp [tryBlock, hb, hp, hd], ?_, ⟨_, by simp [tryBlock, hb, hp, hd]; rfl⟩⟩
      intro x hx
      split at hx <;> (simp at hx; subst hx; rfl)

/-- The effects of a run: the headers, then either nothing that is a send, or the effects
of a `try` block that ended with the response of line 203. -/
theorem handler_shape (env : Env) (w : World) (req : Request) :
    (∀ x ∈ (handler env w req).effects, x.isSend = false) ∨
    ∃ f size r, (tryBlock env w f size).2 = .ok r ∧
      (handler env w req).effects = corsHeaders ++ (tryBlock env w f size).1 := by
  obtain ⟨m, body⟩ := req
  have hcors : ∀ l : List Effect, l = corsHeaders → ∀ x ∈ l, x.isSend = false := by
    rintro l rfl
    exact corsHeaders_noSend
  by_cases hm₁ : m = "OPTIONS"
  · left
    exact hcors _ (by simp [handler, hm₁])
  by_cases hm₂ : m = "POST"
  swap
  · left
    exact hcors _ (by simp [handler, hm₁, hm₂])
  subst hm₂
  have hgate : (!envTruthy env.NOTION_API_KEY || !envTruthy env.NOTION_DATABASE_ID) = true →
      ∀ x ∈ (handler env w ⟨"POST", body⟩).effects, x.isSend = false := by
    intro hg x hx
    simp only [handler, hg, post_ne_options, if_false, if_true, ne_eq, not_true_eq_false,
      List.mem_append, List.mem_singleton] at hx
    rcases hx with hx | rfl
    · exact corsHeaders_noSend x hx
    · rfl
  by_cases hk : envTruthy env.NOTION_API_KEY = true
  swap
  · left
    exact hgate (by simp [hk])
  by_cases hd : envTruthy env.NOTION_DATABASE_ID = true
  swap
  · left
    exact hgate (by simp [hd])
  cases hf : destructure body with
  | none =>
    left
    exact hcors _ (by simp [handler, hk, hd, hf])
  | some f =>
    by_cases hg : (!f.name.truthy || !f.email.truthy || !f.company.truthy ||
        !f.company_size.truthy) = true
    · left
      exact hcors _ (by rw [reject_required hk hd hf hg])
    simp only [Bool.not_eq_true, Bool.or_eq_false_iff, Bool.not_eq_false'] at hg
    obtain ⟨⟨⟨h₁, h₂⟩, h₃⟩, h₄⟩ := hg
    cases he : f.email.toStr with
    | none =>
      left
      exact hcors _ (by simp [handler, hk, hd, hf, h₁, h₂, h₃, h₄, he])
    | some e =>
      cases hre : emailRegexTest e with
      | false =>
        left
        exact hcors _ (by rw [reject_email hk hd hf h₁ h₂ h₃ h₄ he hre])
      | true =>
        by_cases hsz : ∀ s, f.company_size = .str s → validSizes.contains s = false
        · left
          exact hcors _ (by rw [reject_size hk hd hf h₁ h₂ h₃ h₄ he hre hsz])
        · push_neg at hsz
          obtain ⟨size, hsize, hin⟩ := hsz
          simp only [ne_eq, Bool.not_eq_false] at hin
          rw [@handler_valid env w ⟨"POST", body⟩ f e size rfl hk hd hf h₁ h₂ h₃ he hre hsize hin]
          rcases htb : tryBlock env w f size with ⟨effs, r | r⟩
          · left
            rcases tryBlock_shape env w f size with hno | ⟨_, _, _, _, _, _, _, _, r', hr'⟩
            · intro x hx
              simp only [List.mem_append, catchBlock_effects, List.mem_singleton] at hx
              rcases hx with (hx | hx) | hx
              · exact corsHeaders_noSend x hx
              · exact hno x (by rw [htb]; exact hx)
              · subst hx; rfl
            · rw [htb] at hr'
              simp at hr'
          · right
            exact ⟨f, size, r, by rw [htb], by rw [htb]⟩

theorem destructure_toBody (d : FormData) :
    destructure d.toBody =
      some ⟨.str d.name, .str d.email, .str d.phone, .str d.company, .str d.company_size,
        .str d.challenge⟩ := by
  simp [FormData.toBody, destructure, JsVal.get, lookupProp]

theorem submitTry_gate_fails (b : Browser) (fb : Option FeedbackEl) {n v p c cs ch : String}
    (h : (strTruthy (jsTrim n) && strTruthy (jsTrim v) && strTruthy (jsTrim c) &&
      strTruthy cs && emailRegexTest (jsTrim v)) = false) :
    ∃ err, submitTry b ⟨some n, some v, some p, some c, some cs, some ch⟩ fb =
      (fb, [], .error err) := by
  simp only [submitTry, collectFormData, trimmedValue, rawValue, bind, Except.bind, pure,
    Except.pure]
  split_ifs with h₁ h₂
  · exact ⟨_, rfl⟩
  · exact ⟨_, rfl⟩
  · exfalso
    simp only [Bool.not_eq_true, Bool.or_eq_true, Bool.not_eq_true', not_or,
      Bool.not_eq_false] at h₁ h₂
    simp [h₁, h₂] at h

/-! ## The claims -/

/-- C1: a submission in which one of `name`, `email`, `company`, `company_size` is
missing is rejected with a message and creates no record.  The server (a `POST` with the
record-store credentials configured) answers 400 with `success` false and the
required-fields message and makes no record-creation call; the form controller issues
no request, and on a page that has the submit button and the feedback element it shows
an error. -/
theorem missing_required_field_rejected :
    (∀ (env : Env) (w : World) (props : List (String × JsVal)),
      env.hasStoreCredentials = true →
      ((lookupProp "name" props).isMissing = true ∨ (lookupProp "email" props).isMissing = true ∨
        (lookupProp "company" props).isMissing = true ∨
        (lookupProp "company_size" props).isMissing = true) →
      (handler env w ⟨"POST", .obj props⟩).completion =
        .responded ⟨400, .json ⟨false, "Tous les champs obligatoires doivent être remplis.",
          none, none⟩⟩ ∧
      (handler env w ⟨"POST", .obj props⟩).noCreate) ∧
    (∀ (b : Browser) (dom : Dom),
      (inputMissing dom.inputs.name ∨ inputMissing dom.inputs.email ∨
        inputMissing dom.inputs.company ∨ inputMissing dom.inputs.company_size) →
      (onSubmit b dom).noFetch ∧
      (dom.submitBtn.isSome = true → dom.feedback.isSome = true →
        showsError (onSubmit b dom).feedback ∧ (onSubmit b dom).escaped = none)) := by
  constructor
  · intro env w props hc hm
    obtain ⟨hk, hd⟩ := credentials_gate hc
    have hg : (!(lookupProp "name" props).truthy || !(lookupProp "email" props).truthy ||
        !(lookupProp "company" props).truthy || !(lookupProp "company_size" props).truthy)
        = true := by
      rcases hm with h | h | h | h <;> simp [truthy_of_isMissing h]
    have hrun : handler env w ⟨"POST", .obj props⟩ =
        { effects := corsHeaders
          completion :=
            .responded (failure 400 "Tous les champs obligatoires doivent être remplis.") } := by
      simp only [handler, post_ne_options, hk, hd, destructure, JsVal.get, hg]
      simp
    rw [hrun]
    exact ⟨rfl, corsHeaders_noCreate⟩
  · intro b dom hm
    obtain ⟨btn, fb, i⟩ := dom
    cases btn with
    | none =>
      refine ⟨?_, fun h => absurd h (by simp)⟩
      intro e he
      simp [onSubmit] at he
      subst he
      rfl
    | some btn =>
      cases fb with
      | none =>
        refine ⟨?_, fun _ h => absurd h (by simp)⟩
        intro e he
        simp [onSubmit] at he
        subst he
        rfl
      | some fb =>
        obtain ⟨err, htry⟩ := submitTry_missing b i (some { fb with display := "none" }) hm
        obtain ⟨hs, hesc, hnf⟩ := submitCatch_shows err { fb with display := "none" }
        refine ⟨?_, fun _ _ => ⟨?_, ?_⟩⟩
        · intro e he
          simp only [onSubmit, htry] at he
          rcases List.mem_cons.mp he with rfl | he
          · rfl
          · exact hnf e he
        · simpa only [onSubmit, htry] using hs
        · simpa only [onSubmit, htry] using hesc

/-- C2: the email check decides by the pattern `^[^\s@]+@[^\s@]+\.[^\s@]+$`.  On the
server (a `POST` with credentials configured) an email string that does not match is
answered 400 and no record is created, whatever the other fields; one that matches is
never answered with the email rejection, and with the other fields valid the run
reaches the record-creation call.  `a@b` and `abc.com` do not match and `a@b.co` does.
The form controller applies the same pattern to the email string it collects (the
trimmed value of the input, which is the string it sends): no request when it does not
match, the request to `/api/submit-lead` with that email when it does. -/
theorem email_pattern_decides :
    (∀ (env : Env) (w : World) (props : List (String × JsVal)) (e : String),
      env.hasStoreCredentials = true → lookupProp "email" props = .str e →
      ¬ MatchesEmailPattern e →
      (∃ msg, (handler env w ⟨"POST", .obj props⟩).completion =
        .responded ⟨400, .json ⟨false, msg, none, none⟩⟩) ∧
      (handler env w ⟨"POST", .obj props⟩).noCreate) ∧
    (∀ (env : Env) (w : World) (props : List (String × JsVal)) (e : String),
      env.hasStoreCredentials = true → lookupProp "email" props = .str e →
      MatchesEmailPattern e →
      (handler env w ⟨"POST", .obj props⟩).completion ≠
        .responded ⟨400, .json ⟨false, "Adresse email invalide.", none, none⟩⟩ ∧
      ((lookupProp "name" props).isText = true → (lookupProp "company" props).isText = true →
        (lookupProp "company_size" props).IsValidSize →
        (lookupProp "phone" props).isOptionalText = true →
        (lookupProp "challenge" props).isOptionalText = true →
        ∃ args, Effect.pagesCreate args ∈ (handler env w ⟨"POST", .obj props⟩).effects ∧
          args.Email = w.toLowerCase (jsTrim e))) ∧
    (¬ MatchesEmailPattern "a@b" ∧ ¬ MatchesEmailPattern "abc.com" ∧
      MatchesEmailPattern "a@b.co") ∧
    (∀ (b : Browser) (dom : Dom) (v : String),
      dom.inputs.email = some v → ¬ MatchesEmailPattern (jsTrim v) →
      (onSubmit b dom).noFetch ∧
      (dom.submitBtn.isSome = true → dom.feedback.isSome = true →
        showsError (onSubmit b dom).feedback ∧ (onSubmit b dom).escaped = none)) ∧
    (∀ (b : Browser) (btn : Button) (fb : FeedbackEl) (n v p c cs ch : String),
      nonEmpty (jsTrim n) → nonEmpty (jsTrim c) → nonEmpty cs →
      MatchesEmailPattern (jsTrim v) →
      ClientEffect.fetchPost "/api/submit-lead" "POST" "application/json"
          ⟨jsTrim n, jsTrim v, jsTrim p, jsTrim c, cs, jsTrim ch⟩ ∈
        (onSubmit b ⟨some btn, some fb, ⟨some n, some v, some p, some c, some cs, some ch⟩⟩).effects)
    := by
  refine ⟨?_, ?_, ⟨?_, ?_, ?_⟩, ?_, ?_⟩
  · intro env w props e hcr hem hno
    obtain ⟨msg, hrun⟩ := server_rejects_email (w := w) hcr hem hno
    rw [hrun]
    exact ⟨⟨msg, rfl⟩, corsHeaders_noCreate⟩
  · intro env w props e hcr hem hyes
    refine ⟨server_accepts_email hcr hem hyes, fun hn hc hs hp hch => ?_⟩
    obtain ⟨args, hmem, hae, -⟩ := server_creates (w := w) hcr hn hem hyes hc hs hp hch
    exact ⟨args, hmem, hae⟩
  · rw [← emailRegexTest_iff]; decide
  · rw [← emailRegexTest_iff]; decide
  · rw [← emailRegexTest_iff]; decide
  · intro b dom v hv hno
    exact onSubmit_of_early_throw b dom
      (fun fb => submitTry_email_reject b dom.inputs fb hv (regex_false_of_not_matches hno))
  · intro b btn fb n v p c cs ch hn hc hcs hyes
    exact onSubmit_effects_of_try b btn fb _ _
      (submitTry_posts b _ ((strTruthy_iff _).mpr hn) ((strTruthy_iff _).mpr hc)
        ((strTruthy_iff _).mpr hcs) ((emailRegexTest_iff _).mpr hyes))

/-- C3, as stated, fails on a phone that is not text: the body of `demoProps` with the
JSON number 123 as `phone` meets every condition of the claim (credentials configured,
non-empty name and company, an email that matches, the size `6-20`), yet `phone.trim()`
raises a TypeError while the argument of the create call is built; the `catch` answers
the generic 500 and the run makes no record-creation call. -/
theorem numeric_phone_makes_no_create_call :
    demoEnv.hasStoreCredentials = true ∧
    (lookupProp "name" (withField "phone" (.num true "123"))).isText = true ∧
    (lookupProp "company" (withField "phone" (.num true "123"))).isText = true ∧
    lookupProp "email" (withField "phone" (.num true "123")) = .str "ada@example.org" ∧
    MatchesEmailPattern "ada@example.org" ∧
    lookupProp "company_size" (withField "phone" (.num true "123")) = .str "6-20" ∧
    (handler demoEnv demoWorld
      ⟨"POST", .obj (withField "phone" (.num true "123"))⟩).effects =
        corsHeaders ++ [.consoleError "❌ Erreur lors de la soumission:"] ∧
    (handler demoEnv demoWorld
      ⟨"POST", .obj (withField "phone" (.num true "123"))⟩).noCreate ∧
    (handler demoEnv demoWorld
      ⟨"POST", .obj (withField "phone" (.num true "123"))⟩).completion =
        .responded ⟨500, .json ⟨false,
          "Une erreur est survenue. Veuillez réessayer ou nous contacter directement.",
          none, none⟩⟩ := by
  have hrun : (handler demoEnv demoWorld
      ⟨"POST", .obj (withField "phone" (.num true "123"))⟩).effects =
        corsHeaders ++ [.consoleError "❌ Erreur lors de la soumission:"] := by decide
  refine ⟨by decide, by decide, by decide, rfl, (emailRegexTest_iff _).mp (by decide), rfl,
    hrun, ?_, by decide⟩
  intro e he
  rw [hrun] at he
  rcases List.mem_append.mp he with he | he
  · exact corsHeaders_noCreate e he
  · rw [List.mem_singleton] at he
    subst he
    rfl

/-- C3, amended: for a `POST` with credentials configured, a non-empty name and company
and an email that matches the pattern: when `company_size` is none of `1-5`, `6-20`,
`21-50`, `50+` the handler answers 400 and makes no record-creation call; when it is one
of the four, validation passes (the answer is never a 400 rejection: it is the 200, a
500, or the 400 of a store fault, which carries `details`), and when in addition phone
and challenge are each absent or text the run makes the record-creation call with that
size. -/
theorem company_size_validation (env : Env) (w : World) (props : List (String × JsVal))
    (e : String) (hcr : env.hasStoreCredentials = true)
    (hn : (lookupProp "name" props).isText = true)
    (hc : (lookupProp "company" props).isText = true)
    (hem : lookupProp "email" props = .str e) (hyes : MatchesEmailPattern e) :
    (¬ (lookupProp "company_size" props).IsValidSize →
      (∃ msg, (handler env w ⟨"POST", .obj props⟩).completion =
        .responded ⟨400, .json ⟨false, msg, none, none⟩⟩) ∧
      (handler env w ⟨"POST", .obj props⟩).noCreate) ∧
    ((lookupProp "company_size" props).IsValidSize →
      (∀ msg, (handler env w ⟨"POST", .obj props⟩).completion ≠
        .responded ⟨400, .json ⟨false, msg, none, none⟩⟩) ∧
      ((lookupProp "phone" props).isOptionalText = true →
        (lookupProp "challenge" props).isOptionalText = true →
        ∃ args, Effect.pagesCreate args ∈ (handler env w ⟨"POST", .obj props⟩).effects ∧
          lookupProp "company_size" props = .str args.Taille)) := by
  obtain ⟨hk, hd⟩ := credentials_gate hcr
  have hf := destructure_obj props
  have hre := (emailRegexTest_iff e).mpr hyes
  obtain ⟨n, hn', hnt⟩ := isText_iff.mp hn
  obtain ⟨c, hc', hct⟩ := isText_iff.mp hc
  have h₁ : (lookupProp "name" props).truthy = true := by simp [hn', JsVal.truthy, hnt]
  have h₂ : (lookupProp "email" props).truthy = true := by
    simp [hem, JsVal.truthy, truthy_of_matches hyes]
  have h₃ : (lookupProp "company" props).truthy = true := by simp [hc', JsVal.truthy, hct]
  have he : (lookupProp "email" props).toStr = some e := by simp [hem, JsVal.toStr]
  constructor
  · intro hbad
    have hrun : ∃ msg, handler env w ⟨"POST", .obj props⟩ =
        { effects := corsHeaders, completion := .responded (failure 400 msg) } := by
      by_cases h₄ : (lookupProp "company_size" props).truthy = true
      · refine ⟨_, reject_size (e := e) hk hd hf h₁ h₂ h₃ h₄ he hre ?_⟩
        intro s hs
        cases hin : validSizes.contains s with
        | false => rfl
        | true =>
          exfalso
          apply hbad
          simp only [validSizes, List.contains_iff_exists_mem_beq, List.mem_cons,
            beq_iff_eq] at hin
          obtain ⟨x, hx, rfl⟩ := hin
          simp only [List.mem_singleton, List.not_mem_nil, or_false] at hx
          have hs' : lookupProp "company_size" props = .str s := hs
          rw [hs']
          rcases hx with rfl | rfl | rfl | rfl <;> simp [JsVal.IsValidSize]
      · exact ⟨_, reject_required hk hd hf (by simp [h₄])⟩
    obtain ⟨msg, hrun⟩ := hrun
    rw [hrun]
    exact ⟨⟨msg, rfl⟩, corsHeaders_noCreate⟩
  · intro hs
    constructor
    · obtain ⟨size, hsize, hin⟩ := validSize_str hs
      intro msg
      rw [(handler_valid_effects (e := e) rfl hk hd hf h₁ h₂ h₃ he hre hsize hin).2]
      exact tryBlock_not_plain_400 env w _ size msg
    · intro hp hch
      obtain ⟨args, hmem, -, hat⟩ := server_creates (w := w) hcr hn hem hyes hc hs hp hch
      exact ⟨args, hmem, hat⟩

/-- C4: when the run of the handler makes the record-creation call and the store
returns a record, the handler answers 200 with `success` true and `notionPageId` equal
to the id of that record.  The answer is the same under every other notification stage:
any configuration that agrees on the two record-store variables (the provider keys are
arbitrary: first provider, second provider, none) and any world that agrees on the clock,
the lower-casing and the store (the sends are arbitrary: done, a thrown fault, a
response that is not ok). -/
theorem created_record_answers_200 (env : Env) (w : World) (req : Request) (args : CreateArgs)
    (page : NotionPage) (hcall : Effect.pagesCreate args ∈ (handler env w req).effects)
    (hret : w.pagesCreate args = .ok page) :
    (handler env w req).completion =
      .responded ⟨200, .json ⟨true, "Lead enregistré avec succès", some page.id, none⟩⟩ ∧
    ∀ (env' : Env) (w' : World),
      env'.NOTION_API_KEY = env.NOTION_API_KEY →
      env'.NOTION_DATABASE_ID = env.NOTION_DATABASE_ID →
      w'.today = w.today → w'.toLowerCase = w.toLowerCase → w'.pagesCreate = w.pagesCreate →
      (handler env' w' req).completion =
        .responded ⟨200, .json ⟨true, "Lead enregistré avec succès", some page.id, none⟩⟩ := by
  obtain ⟨f, e, size, hm, hk, hd, hf, hn, hem, hc, he, hre, hsize, hin, hb⟩ :=
    handler_create_inv hcall
  have key : ∀ (env' : Env) (w' : World), envTruthy env'.NOTION_API_KEY = true →
      envTruthy env'.NOTION_DATABASE_ID = true →
      buildCreateArgs env' w' f size = .ok args → w'.pagesCreate args = .ok page →
      (handler env' w' req).completion =
        .responded ⟨200, .json ⟨true, "Lead enregistré avec succès", some page.id, none⟩⟩ := by
    intro env' w' hk' hd' hb' hret'
    rw [(handler_valid_effects hm hk' hd' hf hn hem hc he hre hsize hin).2,
      (tryBlock_created hb' hret').1]
  refine ⟨key env w hk hd hb hret, ?_⟩
  intro env' w' h₁ h₂ h₃ h₄ h₅
  refine key env' w' (h₁ ▸ hk) (h₂ ▸ hd) ?_ (h₅ ▸ hret)
  rw [buildCreateArgs_congr f size h₂ h₃ h₄]
  exact hb

/-- C5: whatever the body of a `POST` request, when the record-store API key or the
database id is absent from the configuration the handler answers 500 with `success`
false, and the run makes no record-creation call and no notification send. -/
theorem handler_missing_credentials_500 (env : Env) (w : World) (body : JsVal)
    (h : envAbsent env.NOTION_API_KEY ∨ envAbsent env.NOTION_DATABASE_ID) :
    (handler env w ⟨"POST", body⟩).completion =
      .responded ⟨500, .json ⟨false, "Configuration serveur incomplète. Contactez le support.",
        none, none⟩⟩ ∧
    (handler env w ⟨"POST", body⟩).noCreate ∧
    (handler env w ⟨"POST", body⟩).noSend := by
  have hg : (!envTruthy env.NOTION_API_KEY || !envTruthy env.NOTION_DATABASE_ID) = true := by
    rcases h with h | h <;> simp [envTruthy_of_absent h]
  have hm : ("POST" : String) ≠ "OPTIONS" := by decide
  refine ⟨?_, ?_, ?_⟩
  · simp [handler, hg, hm, failure]
  · intro e he
    simp only [handler, hg, hm, if_false, if_true, ne_eq, not_true_eq_false,
      List.mem_append, List.mem_singleton] at he
    rcases he with he | rfl
    · exact corsHeaders_noCreate e he
    · rfl
  · intro e he
    simp only [handler, hg, hm, if_false, if_true, ne_eq, not_true_eq_false,
      List.mem_append, List.mem_singleton] at he
    rcases he with he | rfl
    · exact corsHeaders_noSend e he
    · rfl

/-- C6: when the record-creation call of a run raises a fault, the status follows the
code of the fault: 400 for `validation_error`, 500 for `object_not_found` and for
`unauthorized`, and for any other code or none a 500 whose body holds `success` false
and the fixed generic message only, with neither `details` nor `notionPageId`. -/
theorem store_fault_mapping (env : Env) (w : World) (req : Request) (args : CreateArgs)
    (err : Fault) (hcall : Effect.pagesCreate args ∈ (handler env w req).effects)
    (hret : w.pagesCreate args = .error err) :
    (err.code = some "validation_error" →
      (handler env w req).completion =
        .responded ⟨400, .json ⟨false, "Format de données invalide pour Notion", none,
          some err.message⟩⟩) ∧
    (err.code = some "object_not_found" →
      (handler env w req).completion =
        .responded ⟨500, .json ⟨false,
          "Base de données Notion introuvable. Contactez le support.", none, none⟩⟩) ∧
    (err.code = some "unauthorized" →
      (handler env w req).completion =
        .responded ⟨500, .json ⟨false,
          "Problème d'authentification Notion. Contactez le support.", none, none⟩⟩) ∧
    (err.code ≠ some "validation_error" → err.code ≠ some "object_not_found" →
      err.code ≠ some "unauthorized" →
      (handler env w req).completion =
        .responded ⟨500, .json ⟨false,
          "Une erreur est survenue. Veuillez réessayer ou nous contacter directement.",
          none, none⟩⟩) := by
  obtain ⟨f, e, size, hm, hk, hd, hf, hn, hem, hc, he, hre, hsize, hin, hb⟩ :=
    handler_create_inv hcall
  rw [handler_valid hm hk hd hf hn hem hc he hre hsize hin, tryBlock_fault hb hret]
  refine ⟨?_, ?_, ?_, ?_⟩
  · intro h
    simp [catchBlock, h]
  · intro h
    simp [catchBlock, h, failure]
  · intro h
    simp [catchBlock, h, failure]
  · intro h₁ h₂ h₃
    simp [catchBlock, h₁, h₂, h₃, failure]

/-- C7: whatever the configuration and the body, an `OPTIONS` request is answered with
status 200 and an empty body, a request whose method is neither `OPTIONS` nor `POST` is
answered with status 405 (a JSON body with `success` false and the method message), and
in both cases the run makes no record-creation call and no notification send. -/
theorem handler_options_200_other_405 (env : Env) (w : World) (body : JsVal) :
    ((handler env w ⟨"OPTIONS", body⟩).completion = .responded ⟨200, .empty⟩ ∧
      (handler env w ⟨"OPTIONS", body⟩).noCreate ∧
      (handler env w ⟨"OPTIONS", body⟩).noSend) ∧
    (∀ m : String, m ≠ "OPTIONS" → m ≠ "POST" →
      (handler env w ⟨m, body⟩).completion =
        .responded ⟨405, .json ⟨false, "Méthode non autorisée. Utilisez POST.", none, none⟩⟩ ∧
      (handler env w ⟨m, body⟩).noCreate ∧
      (handler env w ⟨m, body⟩).noSend) := by
  refine ⟨⟨?_, ?_, ?_⟩, ?_⟩
  · simp [handler]
  · simpa [handler, Run.noCreate] using corsHeaders_noCreate
  · simpa [handler, Run.noSend] using corsHeaders_noSend
  · intro m h₁ h₂
    refine ⟨?_, ?_, ?_⟩
    · simp [handler, h₁, h₂, failure]
    · simpa [handler, h₁, h₂, Run.noCreate] using corsHeaders_noCreate
    · simpa [handler, h₁, h₂, Run.noSend] using corsHeaders_noSend

/-- Every record-creation call is made for fields that passed the three validations:
name and company are non-empty strings (before trimming), the email matches the pattern
and the size is one of the four values; the stored name and company are the trimmed
strings. -/
theorem creation_implies_validated {env : Env} {w : World} {req : Request} {a : CreateArgs}
    (h : Effect.pagesCreate a ∈ (handler env w req).effects) :
    ∃ f n e c, destructure req.body = some f ∧
      f.name = .str n ∧ n ≠ "" ∧ a.Name = jsTrim n ∧
      f.email = .str e ∧ MatchesEmailPattern e ∧ a.Email = w.toLowerCase (jsTrim e) ∧
      f.company = .str c ∧ c ≠ "" ∧ a.Entreprise = jsTrim c ∧
      f.company_size = .str a.Taille ∧ a.Taille ∈ validSizes := by
  obtain ⟨f, e, size, -, -, -, hf, hn, hem, hc, he, hre, hsize, hin, hb⟩ :=
    handler_create_inv h
  obtain ⟨⟨n, hn', han⟩, ⟨e', he', hae⟩, ⟨c, hc', hac⟩, -, -, hat⟩ := buildCreateArgs_ok hb
  have hee : e' = e := by
    rw [he'] at he
    simpa [JsVal.toStr] using he
  subst hee
  refine ⟨f, n, e', c, hf, hn', ?_, han, he', (emailRegexTest_iff _).mp hre, hae, hc', ?_,
    hac, by rw [hat]; exact hsize, ?_⟩
  · rw [hn'] at hn
    exact (strTruthy_iff n).mp hn
  · rw [hc'] at hc
    exact (strTruthy_iff c).mp hc
  · rw [hat]
    simpa using hin

/-- C8: a name of white space only passes the server's required-field check, which
tests the untrimmed string; the handler then calls the record store with the trimmed
name, the empty string, and answers 200. -/
theorem blank_name_reaches_creation :
    jsTrim "   " = "" ∧
    Effect.pagesCreate { demoArgs with Name := "" } ∈
      (handler demoEnv demoWorld ⟨"POST", .obj (withField "name" (.str "   "))⟩).effects ∧
    (handler demoEnv demoWorld ⟨"POST", .obj (withField "name" (.str "   "))⟩).completion =
      .responded ⟨200, .json ⟨true, "Lead enregistré avec succès", some "page-1", none⟩⟩ := by
  refine ⟨by decide, by decide, by decide⟩

/-- A fault leaves the handler only from the two statements that precede the `try`: the
destructuring of the body and the conversion of the email for the pattern test. -/
theorem handler_threw_inv {env : Env} {w : World} {req : Request} {err : Fault}
    (h : (handler env w req).completion = .threw err) :
    req.method = "POST" ∧ envTruthy env.NOTION_API_KEY = true ∧
      envTruthy env.NOTION_DATABASE_ID = true ∧
      (destructure req.body = none ∨
        ∃ f, destructure req.body = some f ∧ f.email.toStr = none) := by
  obtain ⟨m, body⟩ := req
  simp only at h ⊢
  by_cases hm₁ : m = "OPTIONS"
  · simp [handler, hm₁] at h
  by_cases hm₂ : m = "POST"
  swap
  · simp [handler, hm₁, hm₂] at h
  by_cases hk : envTruthy env.NOTION_API_KEY = true
  swap
  · simp [handler, hm₁, hm₂, hk] at h
  by_cases hd : envTruthy env.NOTION_DATABASE_ID = true
  swap
  · simp [handler, hm₁, hm₂, hd] at h
  subst hm₂
  refine ⟨rfl, hk, hd, ?_⟩
  cases hf : destructure body with
  | none => exact Or.inl rfl
  | some f =>
    refine Or.inr ⟨f, rfl, ?_⟩
    cases he : f.email.toStr with
    | none => rfl
    | some e =>
      exfalso
      by_cases hg : (!f.name.truthy || !f.email.truthy || !f.company.truthy ||
          !f.company_size.truthy) = true
      · rw [reject_required (w := w) hk hd hf hg] at h
        simp at h
      simp only [Bool.not_eq_true, Bool.or_eq_false_iff, Bool.not_eq_false'] at hg
      obtain ⟨⟨⟨h₁, h₂⟩, h₃⟩, h₄⟩ := hg
      cases hre : emailRegexTest e with
      | false =>
        rw [reject_email (w := w) hk hd hf h₁ h₂ h₃ h₄ he hre] at h
        simp at h
      | true =>
        by_cases hsz : ∀ s, f.company_size = .str s → validSizes.contains s = false
        · rw [reject_size (w := w) hk hd hf h₁ h₂ h₃ h₄ he hre hsz] at h
          simp at h
        · push_neg at hsz
          obtain ⟨size, hsize, hin⟩ := hsz
          simp only [ne_eq, Bool.not_eq_false] at hin
          rw [(handler_valid_effects rfl hk hd hf h₁ h₂ h₃ he hre hsize hin).2] at h
          split at h <;> simp at h

/-- C9: a `POST` with credentials configured and no body (`req.body` is `undefined`),
or with the JSON body `null`, raises a TypeError at the destructuring of line 66, which
stands before the `try`: the fault leaves the handler and no response is sent.  The
same happens at line 78 for an email that is an object with an own `toString` member. -/
theorem absent_body_fault_escapes :
    (handler demoEnv demoWorld ⟨"POST", .undefined⟩).completion = .threw typeError ∧
    (handler demoEnv demoWorld ⟨"POST", .null⟩).completion = .threw typeError ∧
    (handler demoEnv demoWorld
      ⟨"POST", .obj (withField "email" (.obj [("toString", .num true "1")]))⟩).completion =
        .threw typeError := by
  refine ⟨by decide, by decide, by decide⟩

/-- On a page that has the feedback element the submit control always ends enabled with
its original label. -/
theorem onSubmit_restores_button (b : Browser) (btn : Button) (fb : FeedbackEl)
    (i : FormInputs) :
    (onSubmit b ⟨some btn, some fb, i⟩).submitBtn = some ⟨false, btn.textContent⟩ := by
  simp only [onSubmit]
  rcases submitTry b i (some { fb with display := "none" }) with ⟨fb', effs, r | r⟩ <;> rfl

/-- C10: on a page whose form has its submit button but which has no feedback element,
the statement that hides the previous feedback (line 88) raises a TypeError after the
control was disabled and before the `try`: the `finally` block never runs and the
control stays disabled with the busy label. -/
theorem missing_feedback_leaves_button_disabled :
    (onSubmit demoBrowser { demoDom with feedback := none }).submitBtn =
      some ⟨true, "⏳ Envoi en cours..."⟩ ∧
    (onSubmit demoBrowser { demoDom with feedback := none }).escaped = some typeError := by
  refine ⟨by decide, by decide⟩

/-- C11, as stated, fails on the second provider: with only its key configured the one
send of the stage is the request to `api.resend.com`, whose body has the members `from`,
`to`, `subject` and `html` and no plain-text variant. -/
theorem resend_send_has_no_text_variant :
    envAbsent demoEnv.SENDGRID_API_KEY ∧ envPresent demoEnv.RESEND_API_KEY ∧
    (sendEmailNotification demoEnv demoWorld demoLead).1 =
      [.resendFetch (resendRequest "re_key" demoLead)] ∧
    (Effect.resendFetch (resendRequest "re_key" demoLead)).isSend = true ∧
    (Effect.resendFetch (resendRequest "re_key" demoLead)).textVariant = none ∧
    Effect.resendFetch (resendRequest "re_key" demoLead) ∈
      (handler demoEnv demoWorld ⟨"POST", .obj demoProps⟩).effects ∧
    ¬ (∀ (env : Env) (w : World) (d : LeadData), ∀ x ∈ (sendEmailNotification env w d).1,
        x.isSend = true → x.textVariant.isSome = true ∧ x.htmlVariant.isSome = true) := by
  have hsent : (sendEmailNotification demoEnv demoWorld demoLead).1 =
      [.resendFetch (resendRequest "re_key" demoLead)] := rfl
  have hrun : (handler demoEnv demoWorld ⟨"POST", .obj demoProps⟩).effects =
      corsHeaders ++ [.pagesCreate demoArgs, .consoleLog "✅ Lead créé dans Notion:",
        .resendFetch (resendRequest "re_key" demoLead),
        .consoleError "⚠️ Erreur envoi email (non bloquant):"] := rfl
  refine ⟨Or.inl rfl, ⟨"re_key", rfl, by decide⟩, hsent, rfl, rfl, ?_, ?_⟩
  · rw [hrun]
    simp
  · intro h
    have := (h demoEnv demoWorld demoLead (.resendFetch (resendRequest "re_key" demoLead))
      (by rw [hsent]; exact List.mem_singleton.mpr rfl) rfl).1
    simp [Effect.textVariant] at this

/-- C11, amended: the notification stage uses at most one provider per request, chosen
by credential presence.  With the key of the first provider present the only effect is
one send through it, whatever the key of the second, and the message carries a
plain-text and an HTML variant; with the first key absent and the second present the
only effect is one send through the second provider, which carries an HTML variant and
no plain-text one; with both absent the stage makes no send, logs one warning and
returns without a fault.  Every variant sent names the fields of the lead and the link,
a run of the handler holds at most one send, and the link of a send in a run is the url
of the record the store returned for the create call of that run. -/
theorem notification_uses_one_provider (env : Env) (w : World) (d : LeadData) :
    (∀ k, env.SENDGRID_API_KEY = some k → k ≠ "" →
      (sendEmailNotification env w d).1 = [.sgSend (sgMessage env k d)] ∧
      (sendEmailNotification env w d).2 = w.sgSend (sgMessage env k d) ∧
      (Effect.sgSend (sgMessage env k d)).textVariant = some (sgText d) ∧
      (Effect.sgSend (sgMessage env k d)).htmlVariant = some (sgHtml d) ∧
      Summarizes (sgText d) d ∧ Summarizes (sgHtml d) d) ∧
    (envAbsent env.SENDGRID_API_KEY → ∀ k, env.RESEND_API_KEY = some k → k ≠ "" →
      (sendEmailNotification env w d).1 = [.resendFetch (resendRequest k d)] ∧
      (Effect.resendFetch (resendRequest k d)).textVariant = none ∧
      (Effect.resendFetch (resendRequest k d)).htmlVariant = some (resendHtml d) ∧
      Summarizes (resendHtml d) d) ∧
    (envAbsent env.SENDGRID_API_KEY → envAbsent env.RESEND_API_KEY →
      sendCount (sendEmailNotification env w d).1 = 0 ∧
      (sendEmailNotification env w d).1 = [.consoleWarn
        "⚠️ Aucune API email configurée. Configurez SENDGRID_API_KEY ou RESEND_API_KEY"] ∧
      (sendEmailNotification env w d).2 = .ok ()) ∧
    (∀ req : Request, sendCount (handler env w req).effects ≤ 1 ∧
      ∀ x ∈ (handler env w req).effects, x.isSend = true →
        ∃ args page html, Effect.pagesCreate args ∈ (handler env w req).effects ∧
          w.pagesCreate args = .ok page ∧ x.htmlVariant = some html ∧
          Mentions html page.url) := by
  refine ⟨?_, ?_, ?_, ?_⟩
  · intro k hk hne
    have ht : envTruthy (some k) = true := envTruthy_of_present ⟨k, rfl, hne⟩
    refine ⟨?_, ?_, rfl, rfl, sgText_summarizes d, sgHtml_summarizes d⟩
    · rw [sendEmailNotification_effects]
      simp [ht, hk]
    · simp [sendEmailNotification, ht, hk]
  · intro ha k hk hne
    have hf : envTruthy env.SENDGRID_API_KEY = false := envTruthy_of_absent ha
    have ht : envTruthy (some k) = true := envTruthy_of_present ⟨k, rfl, hne⟩
    refine ⟨?_, rfl, rfl, resendHtml_summarizes d⟩
    rw [sendEmailNotification_effects]
    simp [hf, ht, hk]
  · intro ha hb
    have hf : envTruthy env.SENDGRID_API_KEY = false := envTruthy_of_absent ha
    have hg : envTruthy env.RESEND_API_KEY = false := envTruthy_of_absent hb
    refine ⟨?_, ?_, ?_⟩
    · simp [sendEmailNotification, hf, hg, sendCount, Effect.isSend]
    · simp [sendEmailNotification, hf, hg]
    · simp [sendEmailNotification, hf, hg]
  · intro req
    rcases handler_shape env w req with hno | ⟨f, size, r, hr, heff⟩
    · exact ⟨by rw [sendCount_of_noSend hno]; exact Nat.zero_le _,
        fun x hx hs => absurd hs (by simp [hno x hx])⟩
    · rcases tryBlock_shape env w f size with hno | ⟨args, page, d', logged, hp, hd, htb, hlog, -⟩
      · constructor
        · rw [heff, sendCount_append, sendCount_of_noSend corsHeaders_noSend,
            sendCount_of_noSend hno]
          exact Nat.zero_le _
        · intro x hx hs
          rw [heff, List.mem_append] at hx
          rcases hx with hx | hx
          · exact absurd hs (by simp [corsHeaders_noSend x hx])
          · exact absurd hs (by simp [hno x hx])
      · have hcreate : ∀ x ∈ [Effect.pagesCreate args,
            Effect.consoleLog "✅ Lead créé dans Notion:"], x.isSend = false := by
          intro x hx
          simp at hx
          rcases hx with rfl | rfl <;> rfl
        constructor
        · rw [heff, htb, sendCount_append, sendCount_append, sendCount_append,
            sendCount_of_noSend corsHeaders_noSend, sendCount_of_noSend hcreate,
            sendCount_of_noSend hlog]
          have := sendCount_notification env w d'
          omega
        · intro x hx hs
          rw [heff, htb] at hx
          simp only [List.mem_append] at hx
          have hurl := (buildLeadData_fields hd).1
          have hmem : Effect.pagesCreate args ∈ (handler env w req).effects := by
            rw [heff, htb]
            simp
          rcases hx with hx | (hx | hx) | hx
          · exact absurd hs (by simp [corsHeaders_noSend x hx])
          · exact absurd hs (by simp [hcreate x hx])
          · rw [sendEmailNotification_effects] at hx
            split_ifs at hx
            · simp only [List.mem_singleton] at hx
              subst hx
              exact ⟨args, page, sgHtml d', hmem, hp, rfl, hurl ▸ (sgHtml_summarizes d').2.2.2.2.2.2⟩
            · simp only [List.mem_singleton] at hx
              subst hx
              exact ⟨args, page, resendHtml d', hmem, hp, rfl,
                hurl ▸ (resendHtml_summarizes d').2.2.2.2.2.2⟩
            · simp only [List.mem_singleton] at hx
              subst hx
              exact absurd hs (by simp [Effect.isSend])
          · exact absurd hs (by simp [hlog x hx])

/-- C12, as stated, fails on the size: for the payload of `demoInputs` with the size `7`
the form controller, which has no check of the size against the four values, sends the
request, and the server answers that same payload with the 400 of the size check. -/
theorem client_sends_size_server_rejects :
    postOf (collected "Ada" "ada@example.org" "" "Acme" "7" "") ∈
      (onSubmit demoBrowser
        (filledDom ⟨false, "Envoyer"⟩ ⟨"form-feedback", "", "none"⟩
          "Ada" "ada@example.org" "" "Acme" "7" "")).effects ∧
    (postOf (collected "Ada" "ada@example.org" "" "Acme" "7" "")).isFetch = true ∧
    (handler demoEnv demoWorld
      ⟨"POST", (collected "Ada" "ada@example.org" "" "Acme" "7" "").toBody⟩).completion =
        .responded ⟨400, .json ⟨false, "Taille d'entreprise invalide.", none, none⟩⟩ := by
  refine ⟨by decide, rfl, by decide⟩

/-- C12, amended: on the payload the form controller collects from the six inputs
(`POST`, credentials configured), the client rejects it and sends no request if and
only if the server answers it with the 400 of the required-fields check or of the email
check; the server rejects it with a validation 400 if and only if the client rejects it
or the size is not one of the four values, a check the client does not have; and a
payload the client does not reject is the one it sends. -/
theorem client_rejects_iff_server_required_or_email (env : Env) (w : World) (b : Browser)
    (btn : Button) (fb : FeedbackEl) (n v p c cs ch : String)
    (hcr : env.hasStoreCredentials = true) :
    ((onSubmit b (filledDom btn fb n v p c cs ch)).noFetch ↔
      ((handler env w ⟨"POST", (collected n v p c cs ch).toBody⟩).completion =
          .responded (failure 400 "Tous les champs obligatoires doivent être remplis.") ∨
        (handler env w ⟨"POST", (collected n v p c cs ch).toBody⟩).completion =
          .responded (failure 400 "Adresse email invalide."))) ∧
    ((handler env w ⟨"POST", (collected n v p c cs ch).toBody⟩).completion ∈
        validationResponses ↔
      ((onSubmit b (filledDom btn fb n v p c cs ch)).noFetch ∨ cs ∉ validSizes)) ∧
    (¬ (onSubmit b (filledDom btn fb n v p c cs ch)).noFetch →
      postOf (collected n v p c cs ch) ∈
        (onSubmit b (filledDom btn fb n v p c cs ch)).effects) := by
  obtain ⟨hk, hd⟩ := credentials_gate hcr
  have hf := destructure_toBody (collected n v p c cs ch)
  by_cases hgate : (strTruthy (jsTrim n) && strTruthy (jsTrim v) && strTruthy (jsTrim c) &&
      strTruthy cs && emailRegexTest (jsTrim v)) = true
  · -- the client sends
    simp only [Bool.and_eq_true] at hgate
    obtain ⟨⟨⟨⟨hn, hv⟩, hc⟩, hcs⟩, hre⟩ := hgate
    have hpost : postOf (collected n v p c cs ch) ∈
        (onSubmit b (filledDom btn fb n v p c cs ch)).effects :=
      onSubmit_effects_of_try b btn fb _ _ (submitTry_posts b _ hn hc hcs hre)
    have hsend : ¬ (onSubmit b (filledDom btn fb n v p c cs ch)).noFetch := by
      intro hno
      have := hno _ hpost
      simp [postOf, ClientEffect.isFetch] at this
    have he : (JsVal.str (jsTrim v)).toStr = some (jsTrim v) := rfl
    by_cases hin : validSizes.contains cs = true
    · have hcomp := (@handler_valid_effects env w ⟨"POST", (collected n v p c cs ch).toBody⟩
        _ (jsTrim v) cs rfl hk hd hf hn hv hc he hre rfl hin).2
      have hnot : (handler env w ⟨"POST", (collected n v p c cs ch).toBody⟩).completion ∉
          validationResponses := by
        rw [hcomp]
        exact tryBlock_not_validation env w _ _
      have hin' : cs ∈ validSizes := by simpa using hin
      refine ⟨⟨fun h => absurd h hsend, ?_⟩, ⟨fun h => absurd h hnot, ?_⟩, fun _ => hpost⟩
      · rintro (h | h) <;> exact absurd (by rw [h]; simp [validationResponses]) hnot
      · rintro (h | h)
        · exact absurd h hsend
        · exact absurd hin' h
    · have hin' : cs ∉ validSizes := by simpa using hin
      have hrun := @reject_size env w (collected n v p c cs ch).toBody _ (jsTrim v)
        hk hd hf hn hv hc hcs he hre
        (fun s hs => by
          have : cs = s := by simpa [collected] using hs
          subst this
          simpa using hin)
      refine ⟨⟨fun h => absurd h hsend, ?_⟩, ⟨fun _ => Or.inr hin', fun _ => ?_⟩, fun _ => hpost⟩
      · rw [hrun]
        rintro (h | h) <;> simp [failure] at h
      · rw [hrun]
        simp [validationResponses]
  · -- the client rejects
    have hgate' : (strTruthy (jsTrim n) && strTruthy (jsTrim v) && strTruthy (jsTrim c) &&
        strTruthy cs && emailRegexTest (jsTrim v)) = false := by simpa using hgate
    have hno : (onSubmit b (filledDom btn fb n v p c cs ch)).noFetch :=
      (onSubmit_of_early_throw b (filledDom btn fb n v p c cs ch)
        (fun fb' => submitTry_gate_fails b fb' hgate')).1
    have hserver :
        (handler env w ⟨"POST", (collected n v p c cs ch).toBody⟩).completion =
            .responded (failure 400 "Tous les champs obligatoires doivent être remplis.") ∨
          (handler env w ⟨"POST", (collected n v p c cs ch).toBody⟩).completion =
            .responded (failure 400 "Adresse email invalide.") := by
      by_cases hg : (!strTruthy (jsTrim n) || !strTruthy (jsTrim v) || !strTruthy (jsTrim c) ||
          !strTruthy cs) = true
      · left
        rw [reject_required (w := w) hk hd hf hg]
      · right
        simp only [Bool.not_eq_true, Bool.or_eq_false_iff, Bool.not_eq_false'] at hg
        obtain ⟨⟨⟨h₁, h₂⟩, h₃⟩, h₄⟩ := hg
        have hre : emailRegexTest (jsTrim v) = false := by
          simpa [h₁, h₂, h₃, h₄] using hgate'
        rw [reject_email (w := w) (e := jsTrim v) hk hd hf h₁ h₂ h₃ h₄ rfl hre]
    refine ⟨⟨fun _ => hserver, fun _ => hno⟩, ⟨fun _ => Or.inl hno, fun _ => ?_⟩,
      fun h => absurd hno h⟩
    rcases hserver with h | h <;> rw [h] <;> simp [validationResponses]

/-! ## Instances -/

/-- A body without `name` on the server, and a form whose size input is empty. -/
theorem missing_required_field_rejected_witness :
    (demoEnv.hasStoreCredentials = true ∧
      (lookupProp "name" noNameProps).isMissing = true ∧
      (handler demoEnv demoWorld ⟨"POST", .obj noNameProps⟩).completion =
        .responded ⟨400, .json ⟨false, "Tous les champs obligatoires doivent être remplis.",
          none, none⟩⟩ ∧
      (handler demoEnv demoWorld ⟨"POST", .obj noNameProps⟩).noCreate) ∧
    (inputMissing (domWith { demoInputs with company_size := some "" }).inputs.company_size ∧
      (onSubmit demoBrowser (domWith { demoInputs with company_size := some "" })).noFetch ∧
      showsError (onSubmit demoBrowser
        (domWith { demoInputs with company_size := some "" })).feedback) :=
  ⟨⟨by decide, by decide,
    missing_required_field_rejected.1 demoEnv demoWorld noNameProps (by decide)
      (Or.inl (by decide))⟩,
   ⟨Or.inr rfl,
    (missing_required_field_rejected.2 demoBrowser
      (domWith { demoInputs with company_size := some "" })
      (Or.inr (Or.inr (Or.inr (Or.inr rfl))))).1,
    ((missing_required_field_rejected.2 demoBrowser
      (domWith { demoInputs with company_size := some "" })
      (Or.inr (Or.inr (Or.inr (Or.inr rfl))))).2 rfl rfl).1⟩⟩

/-- The emails `a@b` and `ada@example.org` on the server, the input values `abc.com ` and
` ada@example.org ` in the form. -/
theorem email_pattern_decides_witness :
    (demoEnv.hasStoreCredentials = true ∧
      lookupProp "email" (withField "email" (.str "a@b")) = .str "a@b" ∧
      ¬ MatchesEmailPattern "a@b" ∧
      (handler demoEnv demoWorld ⟨"POST", .obj (withField "email" (.str "a@b"))⟩).noCreate) ∧
    (MatchesEmailPattern "ada@example.org" ∧
      ∃ args, Effect.pagesCreate args ∈
          (handler demoEnv demoWorld ⟨"POST", .obj demoProps⟩).effects ∧
        args.Email = demoWorld.toLowerCase (jsTrim "ada@example.org")) ∧
    (¬ MatchesEmailPattern (jsTrim "abc.com ") ∧
      (onSubmit demoBrowser (domWith { demoInputs with email := some "abc.com " })).noFetch) ∧
    (MatchesEmailPattern (jsTrim " ada@example.org ") ∧
      ClientEffect.fetchPost "/api/submit-lead" "POST" "application/json"
          ⟨jsTrim "Ada", jsTrim " ada@example.org ", jsTrim "", jsTrim "Acme", "6-20",
            jsTrim ""⟩ ∈ (onSubmit demoBrowser demoDom).effects) :=
  ⟨⟨by decide, rfl, (emailRegexTest_iff _).not.mp (by decide),
    (email_pattern_decides.1 demoEnv demoWorld (withField "email" (.str "a@b")) "a@b"
      (by decide) rfl ((emailRegexTest_iff _).not.mp (by decide))).2⟩,
   ⟨(emailRegexTest_iff _).mp (by decide),
    (email_pattern_decides.2.1 demoEnv demoWorld demoProps "ada@example.org" (by decide) rfl
      ((emailRegexTest_iff _).mp (by decide))).2 (by decide) (by decide)
      (Or.inr (Or.inl rfl)) (by decide) (by decide)⟩,
   ⟨(emailRegexTest_iff _).not.mp (by decide),
    (email_pattern_decides.2.2.2.1 demoBrowser
      (domWith { demoInputs with email := some "abc.com " }) "abc.com " rfl
      ((emailRegexTest_iff _).not.mp (by decide))).1⟩,
   ⟨(emailRegexTest_iff _).mp (by decide),
    email_pattern_decides.2.2.2.2 demoBrowser ⟨false, "Envoyer"⟩
      ⟨"form-feedback", "", "none"⟩ "Ada" " ada@example.org " "" "Acme" "6-20" ""
      (by unfold nonEmpty; decide) (by unfold nonEmpty; decide) (by unfold nonEmpty; decide)
      ((emailRegexTest_iff _).mp (by decide))⟩⟩

/-- The sizes `7` and `6-20`. -/
theorem company_size_validation_witness :
    (¬ (lookupProp "company_size" (withField "company_size" (.str "7"))).IsValidSize ∧
      (∃ msg, (handler demoEnv demoWorld
        ⟨"POST", .obj (withField "company_size" (.str "7"))⟩).completion =
          .responded ⟨400, .json ⟨false, msg, none, none⟩⟩) ∧
      (handler demoEnv demoWorld
        ⟨"POST", .obj (withField "company_size" (.str "7"))⟩).noCreate) ∧
    ((lookupProp "company_size" demoProps).IsValidSize ∧
      (lookupProp "phone" demoProps).isOptionalText = true ∧
      (lookupProp "challenge" demoProps).isOptionalText = true ∧
      ∃ args, Effect.pagesCreate args ∈
          (handler demoEnv demoWorld ⟨"POST", .obj demoProps⟩).effects ∧
        lookupProp "company_size" demoProps = .str args.Taille) :=
  ⟨⟨by simp [JsVal.IsValidSize, withField, lookupProp],
    (company_size_validation demoEnv demoWorld (withField "company_size" (.str "7"))
      "ada@example.org" (by decide) (by decide) (by decide) rfl
      ((emailRegexTest_iff _).mp (by decide))).1
      (by simp [JsVal.IsValidSize, withField, lookupProp])⟩,
   ⟨Or.inr (Or.inl rfl), by decide, by decide,
    ((company_size_validation demoEnv demoWorld demoProps "ada@example.org" (by decide)
      (by decide) (by decide) rfl ((emailRegexTest_iff _).mp (by decide))).2
      (Or.inr (Or.inl rfl))).2 (by decide) (by decide)⟩⟩

/-- A valid submission whose record is created while the notification provider answers
with a status that is not ok. -/
theorem created_record_answers_200_witness :
    Effect.pagesCreate demoArgs ∈ (handler demoEnv demoWorld ⟨"POST", .obj demoProps⟩).effects ∧
    demoWorld.pagesCreate demoArgs = .ok demoPage ∧
    demoWorld.resendFetch (resendRequest "re_key"
      ⟨"Ada", "ada@example.org", "Non renseigné", "Acme", "6-20", "Non renseigné",
        "https://www.notion.so/page-1"⟩) = .ok false ∧
    (handler demoEnv demoWorld ⟨"POST", .obj demoProps⟩).completion =
      .responded ⟨200, .json ⟨true, "Lead enregistré avec succès", some "page-1", none⟩⟩ :=
  ⟨by decide, rfl, rfl,
    (created_record_answers_200 demoEnv demoWorld ⟨"POST", .obj demoProps⟩ demoArgs demoPage
      (by decide) rfl).1⟩

/-- A valid submission under a configuration without the API key. -/
theorem handler_missing_credentials_500_witness :
    envAbsent noKeyEnv.NOTION_API_KEY ∧
    (handler noKeyEnv demoWorld ⟨"POST", .obj demoProps⟩).completion =
      .responded ⟨500, .json ⟨false, "Configuration serveur incomplète. Contactez le support.",
        none, none⟩⟩ ∧
    (handler noKeyEnv demoWorld ⟨"POST", .obj demoProps⟩).noCreate ∧
    (handler noKeyEnv demoWorld ⟨"POST", .obj demoProps⟩).noSend :=
  ⟨Or.inl rfl,
    handler_missing_credentials_500 noKeyEnv demoWorld (.obj demoProps) (Or.inl (Or.inl rfl))⟩

/-- A valid submission whose creation raises a fault with the code `rate_limited`. -/
theorem store_fault_mapping_witness :
    Effect.pagesCreate demoArgs ∈
      (handler demoEnv faultyWorld ⟨"POST", .obj demoProps⟩).effects ∧
    faultyWorld.pagesCreate demoArgs = .error demoFault ∧
    (handler demoEnv faultyWorld ⟨"POST", .obj demoProps⟩).completion =
      .responded ⟨500, .json ⟨false,
        "Une erreur est survenue. Veuillez réessayer ou nous contacter directement.",
        none, none⟩⟩ :=
  ⟨by decide, rfl,
    (store_fault_mapping demoEnv faultyWorld ⟨"POST", .obj demoProps⟩ demoArgs demoFault
      (by decide) rfl).2.2.2 (by decide) (by decide) (by decide)⟩

/-- A `GET` request. -/
theorem handler_options_200_other_405_witness :
    "GET" ≠ "OPTIONS" ∧ "GET" ≠ "POST" ∧
    (handler demoEnv demoWorld ⟨"GET", .obj demoProps⟩).completion =
      .responded ⟨405, .json ⟨false, "Méthode non autorisée. Utilisez POST.", none, none⟩⟩ :=
  ⟨by decide, by decide,
    ((handler_options_200_other_405 demoEnv demoWorld (.obj demoProps)).2 "GET" (by decide)
      (by decide)).1⟩

/-- Both keys configured, the second key only, and no key. -/
theorem notification_uses_one_provider_witness :
    (bothKeysEnv.SENDGRID_API_KEY = some "sg_key" ∧ "sg_key" ≠ "" ∧
      envPresent bothKeysEnv.RESEND_API_KEY ∧
      (sendEmailNotification bothKeysEnv demoWorld demoLead).1 =
        [.sgSend (sgMessage bothKeysEnv "sg_key" demoLead)]) ∧
    (envAbsent demoEnv.SENDGRID_API_KEY ∧ demoEnv.RESEND_API_KEY = some "re_key" ∧
      "re_key" ≠ "" ∧
      (sendEmailNotification demoEnv demoWorld demoLead).1 =
        [.resendFetch (resendRequest "re_key" demoLead)]) ∧
    (envAbsent noProviderEnv.SENDGRID_API_KEY ∧ envAbsent noProviderEnv.RESEND_API_KEY ∧
      (sendEmailNotification noProviderEnv demoWorld demoLead).2 = .ok ()) :=
  ⟨⟨rfl, by decide, ⟨"re_key", rfl, by decide⟩,
    ((notification_uses_one_provider bothKeysEnv demoWorld demoLead).1 "sg_key" rfl
      (by decide)).1⟩,
   ⟨Or.inl rfl, rfl, by decide,
    ((notification_uses_one_provider demoEnv demoWorld demoLead).2.1 (Or.inl rfl) "re_key" rfl
      (by decide)).1⟩,
   ⟨Or.inl rfl, Or.inl rfl,
    ((notification_uses_one_provider noProviderEnv demoWorld demoLead).2.2.1 (Or.inl rfl)
      (Or.inl rfl)).2.2⟩⟩

/-- The form of `demoInputs` with the email `abc.com`. -/
theorem client_rejects_iff_server_required_or_email_witness :
    demoEnv.hasStoreCredentials = true ∧
    ((onSubmit demoBrowser
        (filledDom ⟨false, "Envoyer"⟩ ⟨"form-feedback", "", "none"⟩
          "Ada" "abc.com" "" "Acme" "6-20" "")).noFetch ↔
      ((handler demoEnv demoWorld
          ⟨"POST", (collected "Ada" "abc.com" "" "Acme" "6-20" "").toBody⟩).completion =
          .responded (failure 400 "Tous les champs obligatoires doivent être remplis.") ∨
        (handler demoEnv demoWorld
          ⟨"POST", (collected "Ada" "abc.com" "" "Acme" "6-20" "").toBody⟩).completion =
          .responded (failure 400 "Adresse email invalide."))) :=
  ⟨by decide,
    (client_rejects_iff_server_required_or_email demoEnv demoWorld demoBrowser
      ⟨false, "Envoyer"⟩ ⟨"form-feedback", "", "none"⟩ "Ada" "abc.com" "" "Acme" "6-20" ""
      (by decide)).1⟩

end LeadFlow
